import Mathlib

/-!
# TCAM manager of the TruFlow core (`drivers/net/bnxt/tf_core/tf_tcam.c`)

A shallow embedding of `tf_tcam.c`.  The file keeps two process-wide
variables, the init flag and one Index Database handle per direction, and
drives collaborators that live in other translation units: the Index
Database (`tf_rm_*`), the session and device lookup, the device's slice-info
query and the firmware messages (`tf_msg_tcam_entry_*`).

The collaborators are parameters of the embedding (`Collab`).  They act on a
collaborator state `σ`; every call the manager makes is appended to a call
trace, so that "no call is made" is a statement about the trace.

Conventions.
* `void *` is a `Nat`, `NULL` is `0`.
* A C output pointer handed to a collaborator is the `out` field of its
  result: `none` when the collaborator stored nothing, `some v` when it
  stored `v`.
* `TF_CHECK_PARMSn` (tf_common.h) rejects `NULL` arguments.  Parameter blocks
  are passed by value here and the session pointer `tfp` is part of the
  collaborator state, so that check always passes and is not represented.
* Logging (`TFP_DRV_LOG`, `printf`) has no effect on the state.
-/

namespace TfTcam

/-! ## Constants -/

/-- Modelled from the spec: `TF_DIR_MAX` of the missing header; the spec has
exactly two directions, ingress (0) and egress (1). -/
abbrev TF_DIR_MAX : Nat := 2

/-- The errno value `EINVAL`. -/
def EINVAL : Int := 22

/-- The errno value `EOPNOTSUPP`. -/
def EOPNOTSUPP : Int := 95

/-! ## Parameter blocks -/

/-- Modelled from the spec: the fields of `struct tf_tcam_cfg_parms` that
`tf_tcam_bind` reads; `tcam_cnt i` is `resources->tcam_cnt[i].cnt`, the
per-type capacity table of direction `i`. -/
structure tf_tcam_cfg_parms where
  num_elements : Nat
  cfg : List Nat
  tcam_cnt : Nat → List Nat

/-- The fields of `struct tf_rm_create_db_parms` that `tf_tcam_bind` fills
in; the `rm_db` output pointer is the `out` field of the result. -/
structure tf_rm_create_db_parms where
  dir : Nat
  num_elements : Nat
  cfg : List Nat
  alloc_cnt : List Nat

/-- Modelled from the spec: `struct tf_tcam_alloc_parms`; `idx` is the output
field that receives the hardware index. -/
structure tf_tcam_alloc_parms where
  dir : Fin TF_DIR_MAX
  type : Nat
  key_size : Nat
  idx : Nat
deriving DecidableEq, Repr

/-- Modelled from the spec: `struct tf_tcam_free_parms`. -/
structure tf_tcam_free_parms where
  dir : Fin TF_DIR_MAX
  type : Nat
  idx : Nat
deriving DecidableEq, Repr

/-- Modelled from the spec: `struct tf_tcam_set_parms`; `entry` stands for
the entry content (key, mask, result) that only the firmware message reads. -/
structure tf_tcam_set_parms where
  dir : Fin TF_DIR_MAX
  type : Nat
  idx : Nat
  key_size : Nat
  entry : List Nat
deriving DecidableEq, Repr

/-! ## Collaborators -/

/-- One collaborator call, with the arguments the manager passed and the
result code it got back. -/
inductive Call where
  | tf_rm_create_db (dir : Nat) (rc : Int)
  | tf_rm_free_db (dir : Nat) (rm_db : Nat) (rc : Int)
  | tf_session_get_session (rc : Int)
  | tf_session_get_device (rc : Int)
  | tf_dev_get_tcam_slice_info (type : Nat) (key_size : Nat) (rc : Int)
  | tf_rm_allocate (rm_db : Nat) (db_index : Nat) (rc : Int)
  | tf_rm_is_allocated (rm_db : Nat) (db_index : Nat) (index : Nat) (rc : Int)
  | tf_rm_free (rm_db : Nat) (db_index : Nat) (index : Nat) (rc : Int)
  | tf_msg_tcam_entry_free (dir : Nat) (type : Nat) (idx : Nat) (rc : Int)
  | tf_msg_tcam_entry_set (dir : Nat) (type : Nat) (idx : Nat) (rc : Int)
deriving DecidableEq, Repr

/-- Result of a collaborator that only returns a code. -/
structure Ret (σ : Type) where
  rc : Int
  world : σ

/-- Result of a collaborator with an output pointer: `out` is the value it
stored through the pointer, `none` when it stored nothing. -/
structure Res (α σ : Type) where
  rc : Int
  out : Option α
  world : σ

/-- Result of a lookup that yields an object (`tfs`, `dev`) used only when
the code is zero. -/
structure Got (α σ : Type) where
  rc : Int
  val : α
  world : σ

/-- The function table `dev->ops`; a `NULL` entry is `none`.  The slice-info
query takes the table type and the key size and stores the slice count. -/
structure tf_dev_ops (σ : Type) where
  tf_dev_get_tcam_slice_info : Option (σ → Nat → Nat → Res Nat σ)

/-- The device information `struct tf_dev_info`, reduced to its `ops`. -/
structure tf_dev_info (σ : Type) where
  ops : tf_dev_ops σ

/-- The functions of other translation units that `tf_tcam.c` calls. -/
structure Collab (σ : Type) where
  tf_rm_create_db : σ → tf_rm_create_db_parms → Res Nat σ
  tf_rm_free_db : σ → Nat → Nat → Ret σ
  tf_session_get_session : σ → Got Nat σ
  tf_session_get_device : σ → Nat → Got (tf_dev_info σ) σ
  tf_rm_allocate : σ → Nat → Nat → Res Nat σ
  tf_rm_is_allocated : σ → Nat → Nat → Nat → Res Int σ
  tf_rm_free : σ → Nat → Nat → Nat → Ret σ
  tf_msg_tcam_entry_free : σ → tf_tcam_free_parms → Ret σ
  tf_msg_tcam_entry_set : σ → tf_tcam_set_parms → Ret σ

/-! ## Manager state -/

/-- The two file-scope variables of `tf_tcam.c`, the collaborator state and
the trace of collaborator calls made so far. -/
structure State (σ : Type) where
  init : Nat
  tcam_db : Nat → Nat
  world : σ
  trace : List Call

/-- The state at program start: both statics are zero-initialised. -/
def State.initial {σ : Type} (w : σ) : State σ :=
  { init := 0, tcam_db := fun _ => 0, world := w, trace := [] }

/-- Record a collaborator call and the collaborator state it left. -/
def State.emit {σ : Type} (s : State σ) (w : σ) (c : Call) : State σ :=
  { s with world := w, trace := s.trace ++ [c] }

/-- The manager is bound when the init flag is set. -/
def State.bound {σ : Type} (s : State σ) : Prop := s.init ≠ 0

instance {σ : Type} (s : State σ) : Decidable s.bound :=
  inferInstanceAs (Decidable (s.init ≠ 0))

/-! ## `tf_tcam_bind` and `tf_tcam_unbind` -/

/-- The loop `for (i = 0; i < TF_DIR_MAX; i++)` of `tf_tcam_bind`, started at
index `i` with `n = TF_DIR_MAX - i` iterations left.  Returns the first
non-zero code of `tf_rm_create_db`, or 0 when the loop runs to its end. -/
def tf_tcam_bind_loop {σ : Type} (C : Collab σ) (parms : tf_tcam_cfg_parms) :
    Nat → Nat → State σ → Int × State σ
  | 0, _, s => (0, s)
  | n + 1, i, s =>
    let db_cfg : tf_rm_create_db_parms :=
      { dir := i, num_elements := parms.num_elements, cfg := parms.cfg,
        alloc_cnt := parms.tcam_cnt i }
    let r := C.tf_rm_create_db s.world db_cfg
    let s1 : State σ :=
      { (s.emit r.world (Call.tf_rm_create_db i r.rc)) with
        tcam_db := Function.update s.tcam_db i (r.out.getD (s.tcam_db i)) }
    if r.rc ≠ 0 then (r.rc, s1)
    else tf_tcam_bind_loop C parms n (i + 1) s1

/-- The function `tf_tcam_bind`. -/
def tf_tcam_bind {σ : Type} (C : Collab σ) (s : State σ) (parms : tf_tcam_cfg_parms) :
    Int × State σ :=
  if s.init ≠ 0 then (-EINVAL, s)
  else
    let r := tf_tcam_bind_loop C parms TF_DIR_MAX 0 s
    if r.1 ≠ 0 then r
    else (0, { r.2 with init := 1 })

/-- The loop of `tf_tcam_unbind`, started at index `i` with
`n = TF_DIR_MAX - i` iterations left. -/
def tf_tcam_unbind_loop {σ : Type} (C : Collab σ) :
    Nat → Nat → State σ → Int × State σ
  | 0, _, s => (0, s)
  | n + 1, i, s =>
    let r := C.tf_rm_free_db s.world i (s.tcam_db i)
    let s1 := s.emit r.world (Call.tf_rm_free_db i (s.tcam_db i) r.rc)
    if r.rc ≠ 0 then (r.rc, s1)
    else tf_tcam_unbind_loop C n (i + 1)
      { s1 with tcam_db := Function.update s1.tcam_db i 0 }

/-- The function `tf_tcam_unbind`. -/
def tf_tcam_unbind {σ : Type} (C : Collab σ) (s : State σ) : Int × State σ :=
  if s.init = 0 then (-EINVAL, s)
  else
    let r := tf_tcam_unbind_loop C TF_DIR_MAX 0 s
    if r.1 ≠ 0 then r
    else (0, { r.2 with init := 0 })

/-! ## `tf_tcam_alloc` -/

/-- The function `tf_tcam_alloc`.  `w` is the width in bits of the field
`parms->idx`, declared in a header outside this file.  `tf_rm_allocate`
stores a 32-bit index through `(uint32_t *)&parms->idx`; the field keeps its
low `w` bits.  `num_slice_per_row` is a `uint16_t`.  The result carries the
parameter block with its `idx` field as the call left it. -/
def tf_tcam_alloc {σ : Type} (w : Nat) (C : Collab σ) (s : State σ)
    (parms : tf_tcam_alloc_parms) : Int × tf_tcam_alloc_parms × State σ :=
  if s.init = 0 then (-EINVAL, parms, s)
  else
    let r1 := C.tf_session_get_session s.world
    let s1 := s.emit r1.world (Call.tf_session_get_session r1.rc)
    if r1.rc ≠ 0 then (r1.rc, parms, s1)
    else
      let r2 := C.tf_session_get_device s1.world r1.val
      let s2 := s1.emit r2.world (Call.tf_session_get_device r2.rc)
      if r2.rc ≠ 0 then (r2.rc, parms, s2)
      else
        match r2.val.ops.tf_dev_get_tcam_slice_info with
        | none => (-EOPNOTSUPP, parms, s2)
        | some get_tcam_slice_info =>
          let r3 := get_tcam_slice_info s2.world parms.type parms.key_size
          let num_slice_per_row := (r3.out.getD 1) % 2 ^ 16
          let s3 := s2.emit r3.world
            (Call.tf_dev_get_tcam_slice_info parms.type parms.key_size r3.rc)
          if r3.rc ≠ 0 then (r3.rc, parms, s3)
          else
            let r4 := C.tf_rm_allocate s3.world (s3.tcam_db parms.dir) parms.type
            let parms1 : tf_tcam_alloc_parms :=
              { parms with idx := (r4.out.getD parms.idx) % 2 ^ w }
            let s4 := s3.emit r4.world
              (Call.tf_rm_allocate (s3.tcam_db parms.dir) parms.type r4.rc)
            if r4.rc ≠ 0 then (r4.rc, parms1, s4)
            else (0, { parms1 with idx := (parms1.idx * num_slice_per_row) % 2 ^ w }, s4)

/-! ## `tf_tcam_free` -/

/-- The function `tf_tcam_free`.  The result is `none` exactly when the code
divides by a zero slice count, which C leaves undefined. -/
def tf_tcam_free {σ : Type} (C : Collab σ) (s : State σ)
    (parms : tf_tcam_free_parms) : Option (Int × State σ) :=
  if s.init = 0 then some (-EINVAL, s)
  else
    let r1 := C.tf_session_get_session s.world
    let s1 := s.emit r1.world (Call.tf_session_get_session r1.rc)
    if r1.rc ≠ 0 then some (r1.rc, s1)
    else
      let r2 := C.tf_session_get_device s1.world r1.val
      let s2 := s1.emit r2.world (Call.tf_session_get_device r2.rc)
      if r2.rc ≠ 0 then some (r2.rc, s2)
      else
        match r2.val.ops.tf_dev_get_tcam_slice_info with
        | none => some (-EOPNOTSUPP, s2)
        | some get_tcam_slice_info =>
          let r3 := get_tcam_slice_info s2.world parms.type 0
          let num_slice_per_row := (r3.out.getD 1) % 2 ^ 16
          let s3 := s2.emit r3.world
            (Call.tf_dev_get_tcam_slice_info parms.type 0 r3.rc)
          if r3.rc ≠ 0 then some (r3.rc, s3)
          else if num_slice_per_row = 0 then none
          else
            let index := parms.idx / num_slice_per_row
            let r4 := C.tf_rm_is_allocated s3.world (s3.tcam_db parms.dir) parms.type index
            let allocated : Int := r4.out.getD 0
            let s4 := s3.emit r4.world
              (Call.tf_rm_is_allocated (s3.tcam_db parms.dir) parms.type index r4.rc)
            if r4.rc ≠ 0 then some (r4.rc, s4)
            else if allocated = 0 then some (r4.rc, s4)
            else
              let r5 := C.tf_rm_free s4.world (s4.tcam_db parms.dir) parms.type index
              let s5 := s4.emit r5.world
                (Call.tf_rm_free (s4.tcam_db parms.dir) parms.type index r5.rc)
              if r5.rc ≠ 0 then some (r5.rc, s5)
              else
                let r6 := C.tf_msg_tcam_entry_free s5.world parms
                let s6 := s5.emit r6.world
                  (Call.tf_msg_tcam_entry_free parms.dir parms.type parms.idx r6.rc)
                some (0, s6)

/-! ## `tf_tcam_set` and the two stubs -/

/-- The function `tf_tcam_alloc_search`: the body is `return 0`. -/
def tf_tcam_alloc_search {σ : Type} (s : State σ) : Int × State σ := (0, s)

/-- The function `tf_tcam_set`.  The result is `none` exactly when the code
divides by a zero slice count. -/
def tf_tcam_set {σ : Type} (C : Collab σ) (s : State σ)
    (parms : tf_tcam_set_parms) : Option (Int × State σ) :=
  if s.init = 0 then some (-EINVAL, s)
  else
    let r1 := C.tf_session_get_session s.world
    let s1 := s.emit r1.world (Call.tf_session_get_session r1.rc)
    if r1.rc ≠ 0 then some (r1.rc, s1)
    else
      let r2 := C.tf_session_get_device s1.world r1.val
      let s2 := s1.emit r2.world (Call.tf_session_get_device r2.rc)
      if r2.rc ≠ 0 then some (r2.rc, s2)
      else
        match r2.val.ops.tf_dev_get_tcam_slice_info with
        | none => some (-EOPNOTSUPP, s2)
        | some get_tcam_slice_info =>
          let r3 := get_tcam_slice_info s2.world parms.type parms.key_size
          let num_slice_per_row := (r3.out.getD 1) % 2 ^ 16
          let s3 := s2.emit r3.world
            (Call.tf_dev_get_tcam_slice_info parms.type parms.key_size r3.rc)
          if r3.rc ≠ 0 then some (r3.rc, s3)
          else if num_slice_per_row = 0 then none
          else
            let index := parms.idx / num_slice_per_row
            let r4 := C.tf_rm_is_allocated s3.world (s3.tcam_db parms.dir) parms.type index
            let allocated : Int := r4.out.getD 0
            let s4 := s3.emit r4.world
              (Call.tf_rm_is_allocated (s3.tcam_db parms.dir) parms.type index r4.rc)
            if r4.rc ≠ 0 then some (r4.rc, s4)
            else if allocated = 0 then some (r4.rc, s4)
            else
              let r5 := C.tf_msg_tcam_entry_set s4.world parms
              let s5 := s4.emit r5.world
                (Call.tf_msg_tcam_entry_set parms.dir parms.type parms.idx r5.rc)
              some (0, s5)

/-- The function `tf_tcam_get`: the body is `return 0`. -/
def tf_tcam_get {σ : Type} (s : State σ) : Int × State σ := (0, s)

/-! ## A model of the collaborators -/

/-- The errno value `ENOMEM`, the code for an exhausted pool. -/
def ENOMEM : Int := 12

/-- Modelled from the spec: the allocation state of one Index Database.  It
has one pool per table type; flag `i` of a pool is `true` when logical index
`i` is allocated, and the length of the pool is the capacity of the type. -/
abbrev RmDb := List (List Bool)

/-- Modelled from the spec: the collaborator state.  The database with handle
`h` (never 0) is entry `h - 1` of `dbs`; a destroyed database leaves `none`. -/
structure World where
  dbs : List (Option RmDb)
deriving DecidableEq, Repr

/-- Modelled from the spec: how the collaborators other than the Index
Database allocator answer.  `create_rc` and `destroy_rc` give the code of
database creation and destruction per direction, `session_rc` and
`device_rc` the codes of the session and device lookup, `slice` the device's
slice-info query (`none` when the device has none; otherwise it maps table
type and key size to a code and a slice count), `msg_free_rc` and
`msg_set_rc` the codes of the two firmware messages. -/
structure Env where
  create_rc : Nat → Int
  destroy_rc : Nat → Int
  session_rc : Int
  device_rc : Int
  slice : Option (Nat → Nat → Int × Nat)
  msg_free_rc : Int
  msg_set_rc : Int

/-- The database a handle points to, if any. -/
def World.db (w : World) (h : Nat) : Option RmDb :=
  if h = 0 then none else (w.dbs.getD (h - 1) none)

/-- Replace the database a (non-null) handle points to. -/
def World.setDb (w : World) (h : Nat) (db : Option RmDb) : World :=
  { dbs := w.dbs.set (h - 1) db }

/-- Modelled from the spec: `create(direction, per_type_capacity) -> handle`.
A fresh database with every index of every type free. -/
def rm_create_db (E : Env) (w : World) (p : tf_rm_create_db_parms) : Res Nat World :=
  if E.create_rc p.dir ≠ 0 then { rc := E.create_rc p.dir, out := none, world := w }
  else
    { rc := 0, out := some (w.dbs.length + 1),
      world := { dbs := w.dbs ++ [some (p.alloc_cnt.map (fun c => List.replicate c false))] } }

/-- Modelled from the spec: `destroy(handle)`. -/
def rm_free_db (E : Env) (w : World) (dir : Nat) (h : Nat) : Ret World :=
  if E.destroy_rc dir ≠ 0 then { rc := E.destroy_rc dir, world := w }
  else
    match w.db h with
    | none => { rc := -EINVAL, world := w }
    | some _ => { rc := 0, world := w.setDb h none }

/-- Modelled from the spec: `allocate(handle, type) -> logical_index`.  The
lowest free index of the type is taken; the call fails with `-ENOMEM` when
the type has none. -/
def rm_allocate (w : World) (h : Nat) (t : Nat) : Res Nat World :=
  match w.db h with
  | none => { rc := -EINVAL, out := none, world := w }
  | some db =>
    match db.get? t with
    | none => { rc := -EINVAL, out := none, world := w }
    | some pool =>
      if pool.indexOf false < pool.length then
        { rc := 0, out := some (pool.indexOf false),
          world := w.setDb h (some (db.set t (pool.set (pool.indexOf false) true))) }
      else { rc := -ENOMEM, out := none, world := w }

/-- Modelled from the spec: `is_allocated(handle, type, logical_index) -> bool`.
A pure query; an index beyond the capacity is not allocated. -/
def rm_is_allocated (w : World) (h : Nat) (t : Nat) (i : Nat) : Res Int World :=
  match w.db h with
  | none => { rc := -EINVAL, out := none, world := w }
  | some db =>
    match db.get? t with
    | none => { rc := -EINVAL, out := none, world := w }
    | some pool => { rc := 0, out := some (if pool.getD i false then 1 else 0), world := w }

/-- Modelled from the spec: `free(handle, type, logical_index)`. -/
def rm_free (w : World) (h : Nat) (t : Nat) (i : Nat) : Ret World :=
  match w.db h with
  | none => { rc := -EINVAL, world := w }
  | some db =>
    match db.get? t with
    | none => { rc := -EINVAL, world := w }
    | some pool =>
      if pool.getD i false then
        { rc := 0, world := w.setDb h (some (db.set t (pool.set i false))) }
      else { rc := -EINVAL, world := w }

/-- Modelled from the spec: `slice_count(type, key_size) -> count`, a pure
query answering as `f` says. -/
def dev_get_tcam_slice_info (f : Nat → Nat → Int × Nat) (w : World) (t : Nat) (k : Nat) :
    Res Nat World :=
  { rc := (f t k).1, out := some (f t k).2, world := w }

/-- Modelled from the spec: the active device, with or without a slice-info
query. -/
def specDev (E : Env) : tf_dev_info World :=
  { ops := { tf_dev_get_tcam_slice_info := E.slice.map dev_get_tcam_slice_info } }

/-- Modelled from the spec: the collaborators as the spec describes them, the
Index Database as above and the others answering as `E` says. -/
def specCollab (E : Env) : Collab World where
  tf_rm_create_db := rm_create_db E
  tf_rm_free_db := rm_free_db E
  tf_session_get_session := fun w => { rc := E.session_rc, val := 1, world := w }
  tf_session_get_device := fun w _ => { rc := E.device_rc, val := specDev E, world := w }
  tf_rm_allocate := rm_allocate
  tf_rm_is_allocated := rm_is_allocated
  tf_rm_free := rm_free
  tf_msg_tcam_entry_free := fun w _ => { rc := E.msg_free_rc, world := w }
  tf_msg_tcam_entry_set := fun w _ => { rc := E.msg_set_rc, world := w }

/-- An environment in which every collaborator succeeds and every table type
has `n` slices per row whatever the key size. -/
def Env.ok (n : Nat) : Env :=
  { create_rc := fun _ => 0, destroy_rc := fun _ => 0, session_rc := 0, device_rc := 0,
    slice := some (fun _ _ => (0, n)), msg_free_rc := 0, msg_set_rc := 0 }

/-- A capacity table giving every direction the per-type capacities `c`. -/
def cfgOf (c : List Nat) : tf_tcam_cfg_parms :=
  { num_elements := c.length, cfg := [], tcam_cnt := fun _ => c }

/-- The empty collaborator state. -/
def World.empty : World := { dbs := [] }

/-- A bound state over the modelled collaborators: both directions hold a
database with the per-type capacities `c`, and nothing is allocated. -/
def boundState (c : List Nat) : State World :=
  (tf_tcam_bind (specCollab (Env.ok 1)) (State.initial World.empty) (cfgOf c)).2

/-- An environment in which every collaborator succeeds and the slice count
is `n0` for key size 0 and `nk` for every other key size. -/
def Env.byKey (n0 nk : Nat) : Env :=
  { create_rc := fun _ => 0, destroy_rc := fun _ => 0, session_rc := 0, device_rc := 0,
    slice := some (fun _ k => (0, if k = 0 then n0 else nk)), msg_free_rc := 0,
    msg_set_rc := 0 }

/-- The state after one `tf_tcam_alloc` of type 0 on direction 0 with key
size `k`, run in state `s` with a `w`-bit index field. -/
def allocOnce (w : Nat) (E : Env) (k : Nat) (s : State World) : State World :=
  (tf_tcam_alloc w (specCollab E) s { dir := 0, type := 0, key_size := k, idx := 0 }).2.2

/-- The collaborator calls made on the way from state `s` to a later state
`s1`: what `s1.trace` has beyond `s.trace`. -/
def State.callsSince {σ : Type} (s1 s : State σ) : List Call :=
  s1.trace.drop s.trace.length

/-- The call is an Index Database creation that failed. -/
def Call.failedCreate : Call → Bool
  | Call.tf_rm_create_db _ rc => decide (rc ≠ 0)
  | _ => false

/-- The call is an Index Database destruction that failed. -/
def Call.failedDestroy : Call → Bool
  | Call.tf_rm_free_db _ _ rc => decide (rc ≠ 0)
  | _ => false

/-- The logical indices that the calls hand to the Index Database's
is-allocated query, in call order. -/
def isAllocatedQueries (cs : List Call) : List Nat :=
  cs.filterMap fun c =>
    match c with
    | Call.tf_rm_is_allocated _ _ index _ => some index
    | _ => none

/-- A device whose slice-info query always succeeds and stores `sc`. -/
def stubDev (sc : Nat) : tf_dev_info Unit :=
  { ops := ⟨some (fun w _ _ => { rc := 0, out := some sc, world := w })⟩ }

/-- Collaborators with fixed answers: every call succeeds, every slice-info
query stores `sc`, every allocation stores logical index `l` and every
is-allocated query stores 1. -/
def stubCollab (l sc : Nat) : Collab Unit where
  tf_rm_create_db := fun w p => { rc := 0, out := some (p.dir + 1), world := w }
  tf_rm_free_db := fun w _ _ => { rc := 0, world := w }
  tf_session_get_session := fun w => { rc := 0, val := 1, world := w }
  tf_session_get_device := fun w _ => { rc := 0, val := stubDev sc, world := w }
  tf_rm_allocate := fun w _ _ => { rc := 0, out := some l, world := w }
  tf_rm_is_allocated := fun w _ _ _ => { rc := 0, out := some 1, world := w }
  tf_rm_free := fun w _ _ _ => { rc := 0, world := w }
  tf_msg_tcam_entry_free := fun w _ => { rc := 0, world := w }
  tf_msg_tcam_entry_set := fun w _ => { rc := 0, world := w }

/-- A bound state over the fixed-answer collaborators. -/
def stubBound : State Unit :=
  { init := 1, tcam_db := fun d => d + 1, world := (), trace := [] }

/-! ## Sequences of calls -/

/-- One call of the manager's interface. -/
inductive Op where
  | bind (parms : tf_tcam_cfg_parms)
  | unbind
  | alloc (parms : tf_tcam_alloc_parms)
  | free (parms : tf_tcam_free_parms)
  | set (parms : tf_tcam_set_parms)

/-- The state one call leaves, whatever code it returns; `none` when the call
is undefined.  `w` is the width of the index field of alloc. -/
def step {σ : Type} (w : Nat) (C : Collab σ) (s : State σ) : Op → Option (State σ)
  | Op.bind parms => some (tf_tcam_bind C s parms).2
  | Op.unbind => some (tf_tcam_unbind C s).2
  | Op.alloc parms => some (tf_tcam_alloc w C s parms).2.2
  | Op.free parms => (tf_tcam_free C s parms).map Prod.snd
  | Op.set parms => (tf_tcam_set C s parms).map Prod.snd

/-- The state a sequence of calls leaves. -/
def run {σ : Type} (w : Nat) (C : Collab σ) : State σ → List Op → Option (State σ)
  | s, [] => some s
  | s, op :: ops => (step w C s op).bind fun s1 => run w C s1 ops

/-- Every direction has a database handle exactly when the manager is bound. -/
def HandlesIffBound {σ : Type} (s : State σ) : Prop :=
  ∀ d, d < TF_DIR_MAX → (s.tcam_db d ≠ 0 ↔ s.bound)

/-- An environment in which every collaborator succeeds, with one slice per
row, except that creating the database of direction `d` fails with `rc`. -/
def Env.createFails (d : Nat) (rc : Int) : Env :=
  { create_rc := fun i => if i = d then rc else 0, destroy_rc := fun _ => 0,
    session_rc := 0, device_rc := 0, slice := some (fun _ _ => (0, 1)), msg_free_rc := 0,
    msg_set_rc := 0 }

/-- An environment in which every collaborator succeeds, with one slice per
row, except that destroying the database of direction `d` fails with `rc`. -/
def Env.destroyFails (d : Nat) (rc : Int) : Env :=
  { create_rc := fun _ => 0, destroy_rc := fun i => if i = d then rc else 0,
    session_rc := 0, device_rc := 0, slice := some (fun _ _ => (0, 1)), msg_free_rc := 0,
    msg_set_rc := 0 }

/-- An environment in which the Index Database works but the session lookup
fails with `rc`. -/
def Env.sessionFails (rc : Int) : Env :=
  { create_rc := fun _ => 0, destroy_rc := fun _ => 0, session_rc := rc, device_rc := 0,
    slice := some (fun _ _ => (0, 1)), msg_free_rc := 0, msg_set_rc := 0 }

/-- The call is a firmware message. -/
def Call.isFirmware : Call → Bool
  | Call.tf_msg_tcam_entry_free _ _ _ _ => true
  | Call.tf_msg_tcam_entry_set _ _ _ _ => true
  | _ => false

/-- An environment in which every collaborator succeeds but the device has
no slice-info query. -/
def Env.noSlice : Env :=
  { create_rc := fun _ => 0, destroy_rc := fun _ => 0, session_rc := 0, device_rc := 0,
    slice := none, msg_free_rc := 0, msg_set_rc := 0 }

/-- An environment in which every collaborator succeeds but the slice-info
query fails with `rc`. -/
def Env.sliceFails (rc : Int) : Env :=
  { create_rc := fun _ => 0, destroy_rc := fun _ => 0, session_rc := 0, device_rc := 0,
    slice := some (fun _ _ => (rc, 1)), msg_free_rc := 0, msg_set_rc := 0 }

/-- The three lookups that open alloc, free and set succeed from collaborator
state `w0` for table type `t` and key size `k`: the session lookup, the device
lookup and the device's slice-info query, which stores the slice count `sc`
(a `uint16_t`) and leaves collaborator state `w3`. -/
def Resolves {σ : Type} (C : Collab σ) (w0 : σ) (t k sc : Nat) (w3 : σ) : Prop :=
  (C.tf_session_get_session w0).rc = 0 ∧
  (C.tf_session_get_device (C.tf_session_get_session w0).world
    (C.tf_session_get_session w0).val).rc = 0 ∧
  ∃ get_tcam_slice_info,
    (C.tf_session_get_device (C.tf_session_get_session w0).world
      (C.tf_session_get_session w0).val).val.ops.tf_dev_get_tcam_slice_info =
        some get_tcam_slice_info ∧
    (get_tcam_slice_info
      (C.tf_session_get_device (C.tf_session_get_session w0).world
        (C.tf_session_get_session w0).val).world t k).rc = 0 ∧
    (get_tcam_slice_info
      (C.tf_session_get_device (C.tf_session_get_session w0).world
        (C.tf_session_get_session w0).val).world t k).out = some sc ∧
    sc < 2 ^ 16 ∧
    (get_tcam_slice_info
      (C.tf_session_get_device (C.tf_session_get_session w0).world
        (C.tf_session_get_session w0).val).world t k).world = w3

/-- An environment in which every collaborator succeeds, with `n` slices per
row, except that the firmware messages fail: the removal with `rcFree`, the
write with `rcSet`. -/
def Env.firmwareFails (n : Nat) (rcFree rcSet : Int) : Env :=
  { create_rc := fun _ => 0, destroy_rc := fun _ => 0, session_rc := 0, device_rc := 0,
    slice := some (fun _ _ => (0, n)), msg_free_rc := rcFree, msg_set_rc := rcSet }

/-! ## Capacity and allocation counts in the modelled Index Database -/

/-- The allocation flags of table type `t` in the database handle `h` points
to, if there is one. -/
def World.pool (w : World) (h t : Nat) : Option (List Bool) :=
  (w.db h).bind fun db => db.get? t

/-- The allocation flags of the (direction, type) partition. -/
def State.pool (s : State World) (d t : Nat) : Option (List Bool) :=
  s.world.pool (s.tcam_db d) t

/-- The state after consecutive `tf_tcam_alloc` calls for direction `d` and
type `t`, one for each key size of the list, with a `w`-bit index field. -/
def allocSeq (w : Nat) (E : Env) (d : Fin TF_DIR_MAX) (t : Nat) :
    List Nat → State World → State World
  | [], s => s
  | k :: ks, s =>
    allocSeq w E d t ks
      (tf_tcam_alloc w (specCollab E) s { dir := d, type := t, key_size := k, idx := 0 }).2.2

/-! ## Theorems -/

/-! ### The two loops -/

/-- The bind loop leaves the init flag alone, only appends to the trace, and
a non-zero result is the code of a creation call it has just made. -/
theorem tf_tcam_bind_loop_trace {σ : Type} (C : Collab σ) (parms : tf_tcam_cfg_parms) :
    ∀ (n i : Nat) (s : State σ),
      (tf_tcam_bind_loop C parms n i s).2.init = s.init ∧
      ∃ cs, (tf_tcam_bind_loop C parms n i s).2.trace = s.trace ++ cs ∧
        ((tf_tcam_bind_loop C parms n i s).1 ≠ 0 →
          ∃ d, Call.tf_rm_create_db d (tf_tcam_bind_loop C parms n i s).1 ∈ cs) := by
  intro n
  induction n with
  | zero =>
    intro i s
    exact ⟨rfl, [], by simp [tf_tcam_bind_loop], by simp [tf_tcam_bind_loop]⟩
  | succ n ih =>
    intro i s
    by_cases hrc :
        (C.tf_rm_create_db s.world
          { dir := i, num_elements := parms.num_elements, cfg := parms.cfg,
            alloc_cnt := parms.tcam_cnt i }).rc = 0
    · simp only [tf_tcam_bind_loop, hrc, ne_eq, not_true_eq_false, if_false]
      obtain ⟨hi, cs, hcs, hfail⟩ := ih (i + 1)
        { (s.emit (C.tf_rm_create_db s.world
              { dir := i, num_elements := parms.num_elements, cfg := parms.cfg,
                alloc_cnt := parms.tcam_cnt i }).world (Call.tf_rm_create_db i 0)) with
          tcam_db := Function.update s.tcam_db i
            ((C.tf_rm_create_db s.world
              { dir := i, num_elements := parms.num_elements, cfg := parms.cfg,
                alloc_cnt := parms.tcam_cnt i }).out.getD (s.tcam_db i)) }
      refine ⟨by simpa [State.emit] using hi, Call.tf_rm_create_db i 0 :: cs, ?_, ?_⟩
      · simpa [State.emit] using hcs
      · intro h
        obtain ⟨d, hd⟩ := hfail h
        exact ⟨d, List.mem_cons_of_mem _ hd⟩
    · simp only [tf_tcam_bind_loop, hrc, ne_eq, not_false_eq_true, if_true]
      exact ⟨by simp [State.emit],
        [Call.tf_rm_create_db i (C.tf_rm_create_db s.world
          { dir := i, num_elements := parms.num_elements, cfg := parms.cfg,
            alloc_cnt := parms.tcam_cnt i }).rc],
        by simp [State.emit], fun _ => ⟨i, by simp⟩⟩


/-- The unbind loop leaves the init flag alone, only appends to the trace,
and a non-zero result is the code of a destroy call it has just made. -/
theorem tf_tcam_unbind_loop_trace {σ : Type} (C : Collab σ) :
    ∀ (n i : Nat) (s : State σ),
      (tf_tcam_unbind_loop C n i s).2.init = s.init ∧
      ∃ cs, (tf_tcam_unbind_loop C n i s).2.trace = s.trace ++ cs ∧
        ((tf_tcam_unbind_loop C n i s).1 ≠ 0 →
          ∃ d h, Call.tf_rm_free_db d h (tf_tcam_unbind_loop C n i s).1 ∈ cs) := by
  intro n
  induction n with
  | zero =>
    intro i s
    exact ⟨rfl, [], by simp [tf_tcam_unbind_loop], by simp [tf_tcam_unbind_loop]⟩
  | succ n ih =>
    intro i s
    by_cases hrc : (C.tf_rm_free_db s.world i (s.tcam_db i)).rc = 0
    · simp only [tf_tcam_unbind_loop, hrc, ne_eq, not_true_eq_false, if_false]
      obtain ⟨hi, cs, hcs, hfail⟩ := ih (i + 1)
        { (s.emit (C.tf_rm_free_db s.world i (s.tcam_db i)).world
            (Call.tf_rm_free_db i (s.tcam_db i) 0)) with
          tcam_db := Function.update
            (s.emit (C.tf_rm_free_db s.world i (s.tcam_db i)).world
              (Call.tf_rm_free_db i (s.tcam_db i) 0)).tcam_db i 0 }
      refine ⟨by simpa [State.emit] using hi,
        Call.tf_rm_free_db i (s.tcam_db i) 0 :: cs, ?_, ?_⟩
      · simpa [State.emit] using hcs
      · intro h
        obtain ⟨d, h1, hd⟩ := hfail h
        exact ⟨d, h1, List.mem_cons_of_mem _ hd⟩
    · simp only [tf_tcam_unbind_loop, hrc, ne_eq, not_false_eq_true, if_true]
      exact ⟨by simp [State.emit],
        [Call.tf_rm_free_db i (s.tcam_db i) (C.tf_rm_free_db s.world i (s.tcam_db i)).rc],
        by simp [State.emit], fun _ => ⟨i, s.tcam_db i, by simp⟩⟩

/-- When the unbind loop returns 0 it has cleared the handles of the
directions it ran over and kept the handles below its start index. -/
theorem tf_tcam_unbind_loop_handles {σ : Type} (C : Collab σ) :
    ∀ (n i : Nat) (s : State σ), (tf_tcam_unbind_loop C n i s).1 = 0 →
      ∀ d, (d < i → (tf_tcam_unbind_loop C n i s).2.tcam_db d = s.tcam_db d) ∧
        (i ≤ d → d < i + n → (tf_tcam_unbind_loop C n i s).2.tcam_db d = 0) := by
  intro n
  induction n with
  | zero =>
    intro i s _ d
    exact ⟨fun _ => rfl, fun h1 h2 => by omega⟩
  | succ n ih =>
    intro i s h0 d
    by_cases hrc : (C.tf_rm_free_db s.world i (s.tcam_db i)).rc = 0
    · simp only [tf_tcam_unbind_loop, hrc, ne_eq, not_true_eq_false, if_false] at h0 ⊢
      obtain ⟨hlow, hhigh⟩ := ih (i + 1) _ h0 d
      constructor
      · intro hd
        rw [hlow (by omega)]
        simp [State.emit, Function.update, Nat.ne_of_lt hd]
      · intro h1 h2
        by_cases hdi : d = i
        · subst hdi
          rw [hlow (by omega)]
          simp [State.emit]
        · exact hhigh (by omega) (by omega)
    · simp [tf_tcam_unbind_loop, hrc] at h0

/-- When every successful creation stores a non-null handle and the bind loop
returns 0, the handles of the directions it ran over are non-null and the
handles below its start index are kept. -/
theorem tf_tcam_bind_loop_handles {σ : Type} (C : Collab σ) (parms : tf_tcam_cfg_parms)
    (hC : ∀ w p, (C.tf_rm_create_db w p).rc = 0 →
      ∃ h, h ≠ 0 ∧ (C.tf_rm_create_db w p).out = some h) :
    ∀ (n i : Nat) (s : State σ), (tf_tcam_bind_loop C parms n i s).1 = 0 →
      ∀ d, (d < i → (tf_tcam_bind_loop C parms n i s).2.tcam_db d = s.tcam_db d) ∧
        (i ≤ d → d < i + n → (tf_tcam_bind_loop C parms n i s).2.tcam_db d ≠ 0) := by
  intro n
  induction n with
  | zero =>
    intro i s _ d
    exact ⟨fun _ => rfl, fun h1 h2 => by omega⟩
  | succ n ih =>
    intro i s h0 d
    by_cases hrc :
        (C.tf_rm_create_db s.world
          { dir := i, num_elements := parms.num_elements, cfg := parms.cfg,
            alloc_cnt := parms.tcam_cnt i }).rc = 0
    · obtain ⟨h, hh0, hout⟩ := hC _ _ hrc
      simp only [tf_tcam_bind_loop, hrc, ne_eq, not_true_eq_false, if_false] at h0 ⊢
      obtain ⟨hlow, hhigh⟩ := ih (i + 1) _ h0 d
      constructor
      · intro hd
        rw [hlow (by omega)]
        simp [State.emit, Function.update, Nat.ne_of_lt hd]
      · intro h1 h2
        by_cases hdi : d = i
        · subst hdi
          rw [hlow (by omega)]
          simp [State.emit, hout, hh0]
        · exact hhigh (by omega) (by omega)
    · simp [tf_tcam_bind_loop, hrc] at h0

/-- The calls since `s` are what was appended to the trace of `s`. -/
theorem callsSince_of_append {σ : Type} (s1 s : State σ) (cs : List Call)
    (h : s1.trace = s.trace ++ cs) : s1.callsSince s = cs := by
  simp [State.callsSince, h]

/-- A bind on an unbound manager during which no creation fails returns 0,
sets the init flag and leaves the handles as the loop stored them. -/
theorem tf_tcam_bind_unbound_ok {σ : Type} (C : Collab σ) (s : State σ)
    (parms : tf_tcam_cfg_parms) (hinit : s.init = 0)
    (hcreate : ∀ c ∈ (tf_tcam_bind C s parms).2.callsSince s, c.failedCreate = false) :
    (tf_tcam_bind C s parms).1 = 0 ∧ (tf_tcam_bind C s parms).2.init = 1 ∧
      (tf_tcam_bind_loop C parms TF_DIR_MAX 0 s).1 = 0 ∧
      (tf_tcam_bind C s parms).2.tcam_db =
        (tf_tcam_bind_loop C parms TF_DIR_MAX 0 s).2.tcam_db := by
  obtain ⟨-, cs, hcs, hfail⟩ := tf_tcam_bind_loop_trace C parms TF_DIR_MAX 0 s
  by_cases hrc : (tf_tcam_bind_loop C parms TF_DIR_MAX 0 s).1 = 0
  · simp [tf_tcam_bind, hinit, hrc]
  · exfalso
    obtain ⟨d, hd⟩ := hfail hrc
    have hres : tf_tcam_bind C s parms = tf_tcam_bind_loop C parms TF_DIR_MAX 0 s := by
      simp [tf_tcam_bind, hinit, hrc]
    rw [hres, callsSince_of_append _ _ cs hcs] at hcreate
    simpa [Call.failedCreate, hrc] using hcreate _ hd

/-- An unbind on a bound manager during which no destroy fails returns 0,
clears the init flag and clears the handle of every direction. -/
theorem tf_tcam_unbind_bound_ok {σ : Type} (C : Collab σ) (s : State σ)
    (hinit : s.init ≠ 0)
    (hdestroy : ∀ c ∈ (tf_tcam_unbind C s).2.callsSince s, c.failedDestroy = false) :
    (tf_tcam_unbind C s).1 = 0 ∧ (tf_tcam_unbind C s).2.init = 0 ∧
      ∀ d, d < TF_DIR_MAX → (tf_tcam_unbind C s).2.tcam_db d = 0 := by
  obtain ⟨-, cs, hcs, hfail⟩ := tf_tcam_unbind_loop_trace C TF_DIR_MAX 0 s
  by_cases hrc : (tf_tcam_unbind_loop C TF_DIR_MAX 0 s).1 = 0
  · refine ⟨by simp [tf_tcam_unbind, hinit, hrc], by simp [tf_tcam_unbind, hinit, hrc], ?_⟩
    intro d hd
    have := (tf_tcam_unbind_loop_handles C TF_DIR_MAX 0 s hrc d).2 (Nat.zero_le d) (by omega)
    simpa [tf_tcam_unbind, hinit, hrc] using this
  · exfalso
    obtain ⟨d, h, hd⟩ := hfail hrc
    have hres : tf_tcam_unbind C s = tf_tcam_unbind_loop C TF_DIR_MAX 0 s := by
      simp [tf_tcam_unbind, hinit, hrc]
    rw [hres, callsSince_of_append _ _ cs hcs] at hdestroy
    simpa [Call.failedDestroy, hrc] using hdestroy _ hd

/-- A bind that returns 0 started unbound and ends bound. -/
theorem tf_tcam_bind_ok_init {σ : Type} (C : Collab σ) (s : State σ)
    (parms : tf_tcam_cfg_parms) (h : (tf_tcam_bind C s parms).1 = 0) :
    s.init = 0 ∧ (tf_tcam_bind C s parms).2.init = 1 := by
  by_cases hinit : s.init = 0
  · by_cases hrc : (tf_tcam_bind_loop C parms TF_DIR_MAX 0 s).1 = 0
    · simp [tf_tcam_bind, hinit, hrc]
    · simp [tf_tcam_bind, hinit, hrc] at h
  · simp [tf_tcam_bind, hinit, EINVAL] at h

/-! ### The success paths of alloc and free -/

/-- The whole result of `tf_tcam_alloc` when its lookups succeed with slice
count `sc` and the allocation succeeds storing `l`. -/
theorem tf_tcam_alloc_ok_result {σ : Type} (w : Nat) (C : Collab σ) (s : State σ)
    (parms : tf_tcam_alloc_parms) (sc l : Nat)
    (r1 : Got Nat σ) (r2 : Got (tf_dev_info σ) σ)
    (get_tcam_slice_info : σ → Nat → Nat → Res Nat σ) (r3 r4 : Res Nat σ)
    (hbound : s.bound)
    (h1 : C.tf_session_get_session s.world = r1) (h1rc : r1.rc = 0)
    (h2 : C.tf_session_get_device r1.world r1.val = r2) (h2rc : r2.rc = 0)
    (hops : r2.val.ops.tf_dev_get_tcam_slice_info = some get_tcam_slice_info)
    (h3 : get_tcam_slice_info r2.world parms.type parms.key_size = r3)
    (h3rc : r3.rc = 0) (h3out : r3.out = some sc) (hsc : sc < 2 ^ 16)
    (h4 : C.tf_rm_allocate r3.world (s.tcam_db parms.dir) parms.type = r4)
    (h4rc : r4.rc = 0) (h4out : r4.out = some l) :
    tf_tcam_alloc w C s parms =
      (0, { parms with idx := (l * sc) % 2 ^ w },
        { s with
          world := r4.world
          trace := s.trace ++
            [Call.tf_session_get_session 0, Call.tf_session_get_device 0,
             Call.tf_dev_get_tcam_slice_info parms.type parms.key_size 0,
             Call.tf_rm_allocate (s.tcam_db parms.dir) parms.type 0] }) := by
  subst h1 h2 h3 h4
  have hinit : s.init ≠ 0 := hbound
  have hsc16 : sc % 65536 = sc := Nat.mod_eq_of_lt (by norm_num at hsc; exact hsc)
  simp [tf_tcam_alloc, State.emit, hinit, h1rc, h2rc, hops, h3rc, h3out, h4rc, h4out,
    hsc16, Nat.mod_mul_mod]

/-- The whole result of `tf_tcam_free` when its lookups succeed with slice
count `sc ≥ 1`, the descaled index is reported allocated and its release
succeeds: the result is 0 whatever the firmware message returns. -/
theorem tf_tcam_free_ok_result {σ : Type} (C : Collab σ) (s : State σ)
    (parms : tf_tcam_free_parms) (sc : Nat)
    (r1 : Got Nat σ) (r2 : Got (tf_dev_info σ) σ)
    (get_tcam_slice_info : σ → Nat → Nat → Res Nat σ) (r3 : Res Nat σ) (r4 : Res Int σ)
    (r5 r6 : Ret σ)
    (hbound : s.bound)
    (h1 : C.tf_session_get_session s.world = r1) (h1rc : r1.rc = 0)
    (h2 : C.tf_session_get_device r1.world r1.val = r2) (h2rc : r2.rc = 0)
    (hops : r2.val.ops.tf_dev_get_tcam_slice_info = some get_tcam_slice_info)
    (h3 : get_tcam_slice_info r2.world parms.type 0 = r3)
    (h3rc : r3.rc = 0) (h3out : r3.out = some sc) (hsc1 : 1 ≤ sc) (hsc : sc < 2 ^ 16)
    (h4 : C.tf_rm_is_allocated r3.world (s.tcam_db parms.dir) parms.type (parms.idx / sc) = r4)
    (h4rc : r4.rc = 0) (halloc : r4.out.getD 0 ≠ 0)
    (h5 : C.tf_rm_free r4.world (s.tcam_db parms.dir) parms.type (parms.idx / sc) = r5)
    (h5rc : r5.rc = 0)
    (h6 : C.tf_msg_tcam_entry_free r5.world parms = r6) :
    tf_tcam_free C s parms =
      some (0, { s with
        world := r6.world
        trace := s.trace ++
          [Call.tf_session_get_session 0, Call.tf_session_get_device 0,
           Call.tf_dev_get_tcam_slice_info parms.type 0 0,
           Call.tf_rm_is_allocated (s.tcam_db parms.dir) parms.type (parms.idx / sc) 0,
           Call.tf_rm_free (s.tcam_db parms.dir) parms.type (parms.idx / sc) 0,
           Call.tf_msg_tcam_entry_free parms.dir parms.type parms.idx r6.rc] }) := by
  subst h1 h2 h3 h4 h5 h6
  have hinit : s.init ≠ 0 := hbound
  have hsc16 : sc % 65536 = sc := Nat.mod_eq_of_lt (by norm_num at hsc; exact hsc)
  have hsc0 : sc ≠ 0 := by omega
  simp [tf_tcam_free, State.emit, hinit, h1rc, h2rc, hops, h3rc, h3out, h4rc, halloc, h5rc,
    hsc16, hsc0]

/-! ### The modelled Index Database -/

/-- Storing the element a position already holds changes nothing. -/
theorem list_set_same {α : Type} (l : List α) (i : Nat) (a : α) (h : l[i]? = some a) :
    l.set i a = l := by
  induction l generalizing i with
  | nil => simp
  | cons x xs ih =>
    cases i with
    | zero =>
      simp at h
      simp [h]
    | succ j =>
      simp at h
      simp [ih j h]

/-- A handle that points to a database is not null and lies inside `dbs`. -/
theorem World.db_some {w : World} {h : Nat} {db : RmDb} (hdb : w.db h = some db) :
    h ≠ 0 ∧ w.dbs[h - 1]? = some (some db) := by
  unfold World.db at hdb
  by_cases h0 : h = 0
  · simp [h0] at hdb
  · simp only [h0, if_false, List.getD_eq_getElem?_getD] at hdb
    refine ⟨h0, ?_⟩
    cases hget : w.dbs[h - 1]? with
    | none => simp [hget] at hdb
    | some x =>
      simp [hget] at hdb
      simp [hdb]

/-- Reading back the database just stored under a live handle. -/
theorem World.db_setDb {w : World} {h : Nat} {db : RmDb} (hdb : w.db h = some db)
    (x : Option RmDb) : (w.setDb h x).db h = x := by
  obtain ⟨h0, hget⟩ := World.db_some hdb
  have hlt : h - 1 < w.dbs.length := by
    rcases List.getElem?_eq_some.1 hget with ⟨hlt, -⟩
    exact hlt
  simp [World.db, World.setDb, h0, List.getElem?_set_self hlt]

/-- Storing twice under the same handle keeps the second store. -/
theorem World.setDb_setDb (w : World) (h : Nat) (x y : Option RmDb) :
    (w.setDb h x).setDb h y = w.setDb h y := by
  simp [World.setDb, List.set_set]

/-- Storing the database a handle already points to changes nothing. -/
theorem World.setDb_same {w : World} {h : Nat} {db : RmDb} (hdb : w.db h = some db) :
    w.setDb h (some db) = w := by
  obtain ⟨-, hget⟩ := World.db_some hdb
  cases w with
  | mk dbs =>
    simp only [World.setDb]
    congr 1
    exact list_set_same dbs (h - 1) (some db) hget

/-- What a successful modelled allocation did: it took the lowest free index
of the pool and flagged it. -/
theorem rm_allocate_ok {w : World} {h t : Nat} (hrc : (rm_allocate w h t).rc = 0) :
    ∃ db pool, w.db h = some db ∧ db[t]? = some pool ∧
      pool.indexOf false < pool.length ∧
      (rm_allocate w h t).out = some (pool.indexOf false) ∧
      (rm_allocate w h t).world =
        w.setDb h (some (db.set t (pool.set (pool.indexOf false) true))) := by
  unfold rm_allocate at hrc ⊢
  cases hdb : w.db h with
  | none => simp [hdb, EINVAL] at hrc
  | some db =>
    cases hpool : db[t]? with
    | none => simp [hdb, hpool, EINVAL] at hrc
    | some pool =>
      by_cases hfree : pool.indexOf false < pool.length
      · exact ⟨db, pool, rfl, hpool, hfree, by simp [hpool, hfree], by simp [hpool, hfree]⟩
      · simp [hdb, hpool, hfree, ENOMEM] at hrc

/-- In the modelled Index Database, releasing the index that an allocation
has just stored restores the collaborator state, and in between the index is
reported allocated. -/
theorem rm_free_after_allocate {w : World} {h t l : Nat}
    (hrc : (rm_allocate w h t).rc = 0) (hout : (rm_allocate w h t).out = some l) :
    rm_is_allocated (rm_allocate w h t).world h t l =
        { rc := 0, out := some 1, world := (rm_allocate w h t).world } ∧
      rm_free (rm_allocate w h t).world h t l = { rc := 0, world := w } := by
  obtain ⟨db, pool, hdb, hpool, hfree, hout1, hworld⟩ := rm_allocate_ok hrc
  have hl : pool.indexOf false = l := by
    rw [hout1] at hout
    exact Option.some.inj hout
  subst hl
  have ht : t < db.length := by
    rcases List.getElem?_eq_some.1 hpool with ⟨ht, -⟩
    exact ht
  have hflag : pool[pool.indexOf false]? = some false := by
    rw [List.getElem?_eq_getElem hfree, List.getElem_indexOf hfree]
  have hdb1 : (rm_allocate w h t).world.db h =
      some (db.set t (pool.set (pool.indexOf false) true)) := by
    rw [hworld]
    exact World.db_setDb hdb _
  have hback : w.setDb h (some (db.set t (pool.set (pool.indexOf false) false))) = w := by
    rw [list_set_same pool _ false hflag, list_set_same db t pool hpool]
    exact World.setDb_same hdb
  constructor
  · simp [rm_is_allocated, hdb1, List.getElem?_set_self ht, List.getElem?_set_self hfree]
  · simp only [rm_free, hdb1, List.get?_eq_getElem?, List.getElem?_set_self ht,
      List.getD_eq_getElem?_getD, List.getElem?_set_self hfree, Option.getD_some, if_true,
      List.set_set]
    rw [hworld, World.setDb_setDb, hback]

/-! ### What alloc, free and set leave alone -/

/-- Alloc never touches the init flag or the handles and only appends to the
trace. -/
theorem tf_tcam_alloc_frame {σ : Type} (w : Nat) (C : Collab σ) (s : State σ)
    (parms : tf_tcam_alloc_parms) :
    (tf_tcam_alloc w C s parms).2.2.init = s.init ∧
      (tf_tcam_alloc w C s parms).2.2.tcam_db = s.tcam_db ∧
      ∃ cs, (tf_tcam_alloc w C s parms).2.2.trace = s.trace ++ cs := by
  unfold tf_tcam_alloc
  dsimp only
  repeat' split
  all_goals exact ⟨rfl, rfl, _, by simp [State.emit]; rfl⟩

/-- Free never touches the init flag or the handles and only appends to the
trace. -/
theorem tf_tcam_free_frame {σ : Type} (C : Collab σ) (s : State σ)
    (parms : tf_tcam_free_parms) (r : Int × State σ) (h : tf_tcam_free C s parms = some r) :
    r.2.init = s.init ∧ r.2.tcam_db = s.tcam_db ∧ ∃ cs, r.2.trace = s.trace ++ cs := by
  unfold tf_tcam_free at h
  dsimp only at h
  repeat' split at h
  all_goals cases h <;> exact ⟨rfl, rfl, _, by simp [State.emit]; rfl⟩

/-- Set never touches the init flag or the handles and only appends to the
trace. -/
theorem tf_tcam_set_frame {σ : Type} (C : Collab σ) (s : State σ)
    (parms : tf_tcam_set_parms) (r : Int × State σ) (h : tf_tcam_set C s parms = some r) :
    r.2.init = s.init ∧ r.2.tcam_db = s.tcam_db ∧ ∃ cs, r.2.trace = s.trace ++ cs := by
  unfold tf_tcam_set at h
  dsimp only at h
  repeat' split at h
  all_goals cases h <;> exact ⟨rfl, rfl, _, by simp [State.emit]; rfl⟩

/-! ### Sequences of calls -/

/-- Bind only appends to the trace. -/
theorem tf_tcam_bind_trace {σ : Type} (C : Collab σ) (s : State σ)
    (parms : tf_tcam_cfg_parms) :
    ∃ cs, (tf_tcam_bind C s parms).2.trace = s.trace ++ cs := by
  obtain ⟨-, cs, hcs, -⟩ := tf_tcam_bind_loop_trace C parms TF_DIR_MAX 0 s
  by_cases hinit : s.init = 0
  · by_cases hrc : (tf_tcam_bind_loop C parms TF_DIR_MAX 0 s).1 = 0
    · exact ⟨cs, by simpa [tf_tcam_bind, hinit, hrc] using hcs⟩
    · exact ⟨cs, by simpa [tf_tcam_bind, hinit, hrc] using hcs⟩
  · exact ⟨[], by simp [tf_tcam_bind, hinit]⟩

/-- Unbind only appends to the trace. -/
theorem tf_tcam_unbind_trace {σ : Type} (C : Collab σ) (s : State σ) :
    ∃ cs, (tf_tcam_unbind C s).2.trace = s.trace ++ cs := by
  obtain ⟨-, cs, hcs, -⟩ := tf_tcam_unbind_loop_trace C TF_DIR_MAX 0 s
  by_cases hinit : s.init = 0
  · exact ⟨[], by simp [tf_tcam_unbind, hinit]⟩
  · by_cases hrc : (tf_tcam_unbind_loop C TF_DIR_MAX 0 s).1 = 0
    · exact ⟨cs, by simpa [tf_tcam_unbind, hinit, hrc] using hcs⟩
    · exact ⟨cs, by simpa [tf_tcam_unbind, hinit, hrc] using hcs⟩

/-- Every call only appends to the trace. -/
theorem step_trace {σ : Type} (w : Nat) (C : Collab σ) (s s1 : State σ) (op : Op)
    (h : step w C s op = some s1) : ∃ cs, s1.trace = s.trace ++ cs := by
  cases op with
  | bind parms =>
    simp only [step, Option.some.injEq] at h
    subst h
    exact tf_tcam_bind_trace C s parms
  | unbind =>
    simp only [step, Option.some.injEq] at h
    subst h
    exact tf_tcam_unbind_trace C s
  | alloc parms =>
    simp only [step, Option.some.injEq] at h
    subst h
    exact (tf_tcam_alloc_frame w C s parms).2.2
  | free parms =>
    simp only [step, Option.map_eq_some'] at h
    obtain ⟨r, hr, rfl⟩ := h
    exact (tf_tcam_free_frame C s parms r hr).2.2
  | set parms =>
    simp only [step, Option.map_eq_some'] at h
    obtain ⟨r, hr, rfl⟩ := h
    exact (tf_tcam_set_frame C s parms r hr).2.2

/-- A sequence of calls only appends to the trace. -/
theorem run_trace {σ : Type} (w : Nat) (C : Collab σ) (ops : List Op) :
    ∀ (s s1 : State σ), run w C s ops = some s1 → ∃ cs, s1.trace = s.trace ++ cs := by
  induction ops with
  | nil =>
    intro s s1 h
    simp only [run, Option.some.injEq] at h
    exact ⟨[], by simp [h]⟩
  | cons op ops ih =>
    intro s s1 h
    simp only [run, Option.bind_eq_some] at h
    obtain ⟨s2, hstep, hrun⟩ := h
    obtain ⟨cs, hcs⟩ := step_trace w C s s2 op hstep
    obtain ⟨cs1, hcs1⟩ := ih s2 s1 hrun
    exact ⟨cs ++ cs1, by rw [hcs1, hcs, List.append_assoc]⟩

/-- One call keeps "handles exist exactly when bound", provided no database
creation or destruction failed during the call and a successful creation
stores a non-null handle. -/
theorem step_handles_iff_bound {σ : Type} (w : Nat) (C : Collab σ)
    (hC : ∀ x p, (C.tf_rm_create_db x p).rc = 0 →
      ∃ h, h ≠ 0 ∧ (C.tf_rm_create_db x p).out = some h)
    (s s1 : State σ) (op : Op) (hinv : HandlesIffBound s)
    (h : step w C s op = some s1)
    (hok : ∀ c ∈ s1.callsSince s, c.failedCreate = false ∧ c.failedDestroy = false) :
    HandlesIffBound s1 := by
  cases op with
  | bind parms =>
    simp only [step, Option.some.injEq] at h
    subst h
    by_cases hinit : s.init = 0
    · obtain ⟨-, hi, hloop, hdb⟩ :=
        tf_tcam_bind_unbound_ok C s parms hinit (fun c hc => (hok c hc).1)
      intro d hd
      have hne := (tf_tcam_bind_loop_handles C parms hC TF_DIR_MAX 0 s hloop d).2
        (Nat.zero_le d) (by omega)
      rw [hdb]
      simp [State.bound, hi, hne]
    · simpa [tf_tcam_bind, hinit] using hinv
  | unbind =>
    simp only [step, Option.some.injEq] at h
    subst h
    by_cases hinit : s.init = 0
    · simpa [tf_tcam_unbind, hinit] using hinv
    · obtain ⟨-, hi, hdb⟩ :=
        tf_tcam_unbind_bound_ok C s hinit (fun c hc => (hok c hc).2)
      intro d hd
      simp [State.bound, hi, hdb d hd]
  | alloc parms =>
    simp only [step, Option.some.injEq] at h
    subst h
    obtain ⟨hi, hdb, -⟩ := tf_tcam_alloc_frame w C s parms
    intro d hd
    simpa [State.bound, hi, hdb] using hinv d hd
  | free parms =>
    simp only [step, Option.map_eq_some'] at h
    obtain ⟨r, hr, rfl⟩ := h
    obtain ⟨hi, hdb, -⟩ := tf_tcam_free_frame C s parms r hr
    intro d hd
    simpa [State.bound, hi, hdb] using hinv d hd
  | set parms =>
    simp only [step, Option.map_eq_some'] at h
    obtain ⟨r, hr, rfl⟩ := h
    obtain ⟨hi, hdb, -⟩ := tf_tcam_set_frame C s parms r hr
    intro d hd
    simpa [State.bound, hi, hdb] using hinv d hd

/-- A sequence of calls keeps "handles exist exactly when bound", provided no
database creation or destruction in the final trace failed. -/
theorem run_handles_iff_bound {σ : Type} (w : Nat) (C : Collab σ)
    (hC : ∀ x p, (C.tf_rm_create_db x p).rc = 0 →
      ∃ h, h ≠ 0 ∧ (C.tf_rm_create_db x p).out = some h)
    (ops : List Op) :
    ∀ (s s1 : State σ), HandlesIffBound s → run w C s ops = some s1 →
      (∀ c ∈ s1.trace, c.failedCreate = false ∧ c.failedDestroy = false) →
      HandlesIffBound s1 := by
  induction ops with
  | nil =>
    intro s s1 hinv h _
    simp only [run, Option.some.injEq] at h
    exact h ▸ hinv
  | cons op ops ih =>
    intro s s1 hinv h hok
    simp only [run, Option.bind_eq_some] at h
    obtain ⟨s2, hstep, hrun⟩ := h
    obtain ⟨cs, hcs⟩ := step_trace w C s s2 op hstep
    obtain ⟨cs1, hcs1⟩ := run_trace w C ops s2 s1 hrun
    refine ih s2 s1 (step_handles_iff_bound w C hC s s2 op hinv hstep ?_) hrun hok
    intro c hc
    rw [callsSince_of_append s2 s cs hcs] at hc
    exact hok c (by rw [hcs1, hcs]; simp [hc])

/-- In the modelled Index Database a successful creation stores a non-null
handle. -/
theorem specCollab_create_handle (E : Env) (x : World) (p : tf_rm_create_db_parms)
    (h : ((specCollab E).tf_rm_create_db x p).rc = 0) :
    ∃ hd, hd ≠ 0 ∧ ((specCollab E).tf_rm_create_db x p).out = some hd := by
  by_cases hrc : E.create_rc p.dir = 0
  · exact ⟨x.dbs.length + 1, by omega, by simp [specCollab, rm_create_db, hrc]⟩
  · simp [specCollab, rm_create_db, hrc] at h

/-! ### Alloc, free and set after the lookups -/

/-- The whole result of `tf_tcam_alloc` when the lookups resolve slice count
`sc` and the allocation succeeds storing `l`. -/
theorem tf_tcam_alloc_resolved {σ : Type} (w : Nat) (C : Collab σ) (s : State σ)
    (parms : tf_tcam_alloc_parms) (sc l : Nat) (w3 : σ) (r4 : Res Nat σ)
    (hbound : s.bound) (hres : Resolves C s.world parms.type parms.key_size sc w3)
    (h4 : C.tf_rm_allocate w3 (s.tcam_db parms.dir) parms.type = r4)
    (h4rc : r4.rc = 0) (h4out : r4.out = some l) :
    tf_tcam_alloc w C s parms =
      (0, { parms with idx := (l * sc) % 2 ^ w },
        { s with
          world := r4.world
          trace := s.trace ++
            [Call.tf_session_get_session 0, Call.tf_session_get_device 0,
             Call.tf_dev_get_tcam_slice_info parms.type parms.key_size 0,
             Call.tf_rm_allocate (s.tcam_db parms.dir) parms.type 0] }) := by
  obtain ⟨h1rc, h2rc, f, hops, h3rc, h3out, hsc, hw3⟩ := hres
  subst hw3
  exact tf_tcam_alloc_ok_result w C s parms sc l _ _ f _ r4 hbound rfl h1rc rfl h2rc hops rfl
    h3rc h3out hsc h4 h4rc h4out

/-- The whole result of `tf_tcam_free` when the lookups resolve slice count
`sc ≥ 1`, the descaled index is reported allocated and its release succeeds. -/
theorem tf_tcam_free_resolved {σ : Type} (C : Collab σ) (s : State σ)
    (parms : tf_tcam_free_parms) (sc : Nat) (w3 : σ) (r4 : Res Int σ) (r5 r6 : Ret σ)
    (hbound : s.bound) (hres : Resolves C s.world parms.type 0 sc w3) (hsc1 : 1 ≤ sc)
    (h4 : C.tf_rm_is_allocated w3 (s.tcam_db parms.dir) parms.type (parms.idx / sc) = r4)
    (h4rc : r4.rc = 0) (halloc : r4.out.getD 0 ≠ 0)
    (h5 : C.tf_rm_free r4.world (s.tcam_db parms.dir) parms.type (parms.idx / sc) = r5)
    (h5rc : r5.rc = 0)
    (h6 : C.tf_msg_tcam_entry_free r5.world parms = r6) :
    tf_tcam_free C s parms =
      some (0, { s with
        world := r6.world
        trace := s.trace ++
          [Call.tf_session_get_session 0, Call.tf_session_get_device 0,
           Call.tf_dev_get_tcam_slice_info parms.type 0 0,
           Call.tf_rm_is_allocated (s.tcam_db parms.dir) parms.type (parms.idx / sc) 0,
           Call.tf_rm_free (s.tcam_db parms.dir) parms.type (parms.idx / sc) 0,
           Call.tf_msg_tcam_entry_free parms.dir parms.type parms.idx r6.rc] }) := by
  obtain ⟨h1rc, h2rc, f, hops, h3rc, h3out, hsc, hw3⟩ := hres
  subst hw3
  exact tf_tcam_free_ok_result C s parms sc _ _ f _ r4 r5 r6 hbound rfl h1rc rfl h2rc hops rfl
    h3rc h3out hsc1 hsc h4 h4rc halloc h5 h5rc h6

/-- The whole result of `tf_tcam_set` when the lookups resolve slice count
`sc ≥ 1` and the descaled index is reported allocated: the result is 0
whatever the firmware message returns. -/
theorem tf_tcam_set_resolved {σ : Type} (C : Collab σ) (s : State σ)
    (parms : tf_tcam_set_parms) (sc : Nat) (w3 : σ) (r4 : Res Int σ) (r5 : Ret σ)
    (hbound : s.bound) (hres : Resolves C s.world parms.type parms.key_size sc w3)
    (hsc1 : 1 ≤ sc)
    (h4 : C.tf_rm_is_allocated w3 (s.tcam_db parms.dir) parms.type (parms.idx / sc) = r4)
    (h4rc : r4.rc = 0) (halloc : r4.out.getD 0 ≠ 0)
    (h5 : C.tf_msg_tcam_entry_set r4.world parms = r5) :
    tf_tcam_set C s parms =
      some (0, { s with
        world := r5.world
        trace := s.trace ++
          [Call.tf_session_get_session 0, Call.tf_session_get_device 0,
           Call.tf_dev_get_tcam_slice_info parms.type parms.key_size 0,
           Call.tf_rm_is_allocated (s.tcam_db parms.dir) parms.type (parms.idx / sc) 0,
           Call.tf_msg_tcam_entry_set parms.dir parms.type parms.idx r5.rc] }) := by
  obtain ⟨h1rc, h2rc, f, hops, h3rc, h3out, hsc, hw3⟩ := hres
  subst hw3 h4 h5
  have hinit : s.init ≠ 0 := hbound
  have hsc16 : sc % 65536 = sc := Nat.mod_eq_of_lt (by norm_num at hsc; exact hsc)
  have hsc0 : sc ≠ 0 := by omega
  simp [tf_tcam_set, State.emit, hinit, h1rc, h2rc, hops, h3rc, h3out, h4rc, halloc,
    hsc16, hsc0]

/-- After the lookups resolve slice count `sc ≥ 1`, the one is-allocated
query `tf_tcam_free` makes is for `parms.idx / sc`. -/
theorem tf_tcam_free_query {σ : Type} (C : Collab σ) (s : State σ)
    (parms : tf_tcam_free_parms) (sc : Nat) (w3 : σ)
    (hbound : s.bound) (hres : Resolves C s.world parms.type 0 sc w3) (hsc1 : 1 ≤ sc) :
    ∃ r, tf_tcam_free C s parms = some r ∧
      isAllocatedQueries (r.2.callsSince s) = [parms.idx / sc] := by
  obtain ⟨h1rc, h2rc, f, hops, h3rc, h3out, hsc, hw3⟩ := hres
  subst hw3
  have hinit : s.init ≠ 0 := hbound
  have hsc16 : sc % 65536 = sc := Nat.mod_eq_of_lt (by norm_num at hsc; exact hsc)
  have hsc0 : sc ≠ 0 := by omega
  by_cases ha : (C.tf_rm_is_allocated
      (f (C.tf_session_get_device (C.tf_session_get_session s.world).world
        (C.tf_session_get_session s.world).val).world parms.type 0).world
      (s.tcam_db parms.dir) parms.type (parms.idx / sc)).rc = 0
  · by_cases hb : (C.tf_rm_is_allocated
        (f (C.tf_session_get_device (C.tf_session_get_session s.world).world
          (C.tf_session_get_session s.world).val).world parms.type 0).world
        (s.tcam_db parms.dir) parms.type (parms.idx / sc)).out.getD 0 = 0
    · simp [tf_tcam_free, State.emit, State.callsSince, isAllocatedQueries, hinit, h1rc, h2rc,
        hops, h3rc, h3out, hsc16, hsc0, ha, hb]
    · by_cases hc : (C.tf_rm_free
          (C.tf_rm_is_allocated
            (f (C.tf_session_get_device (C.tf_session_get_session s.world).world
              (C.tf_session_get_session s.world).val).world parms.type 0).world
            (s.tcam_db parms.dir) parms.type (parms.idx / sc)).world
          (s.tcam_db parms.dir) parms.type (parms.idx / sc)).rc = 0
      · simp [tf_tcam_free, State.emit, State.callsSince, isAllocatedQueries, hinit, h1rc,
          h2rc, hops, h3rc, h3out, hsc16, hsc0, ha, hb, hc]
      · simp [tf_tcam_free, State.emit, State.callsSince, isAllocatedQueries, hinit, h1rc,
          h2rc, hops, h3rc, h3out, hsc16, hsc0, ha, hb, hc]
  · simp [tf_tcam_free, State.emit, State.callsSince, isAllocatedQueries, hinit, h1rc, h2rc,
      hops, h3rc, h3out, hsc16, hsc0, ha]

/-- After the lookups resolve slice count `sc ≥ 1`, the one is-allocated
query `tf_tcam_set` makes is for `parms.idx / sc`. -/
theorem tf_tcam_set_query {σ : Type} (C : Collab σ) (s : State σ)
    (parms : tf_tcam_set_parms) (sc : Nat) (w3 : σ)
    (hbound : s.bound) (hres : Resolves C s.world parms.type parms.key_size sc w3)
    (hsc1 : 1 ≤ sc) :
    ∃ r, tf_tcam_set C s parms = some r ∧
      isAllocatedQueries (r.2.callsSince s) = [parms.idx / sc] := by
  obtain ⟨h1rc, h2rc, f, hops, h3rc, h3out, hsc, hw3⟩ := hres
  subst hw3
  have hinit : s.init ≠ 0 := hbound
  have hsc16 : sc % 65536 = sc := Nat.mod_eq_of_lt (by norm_num at hsc; exact hsc)
  have hsc0 : sc ≠ 0 := by omega
  by_cases ha : (C.tf_rm_is_allocated
      (f (C.tf_session_get_device (C.tf_session_get_session s.world).world
        (C.tf_session_get_session s.world).val).world parms.type parms.key_size).world
      (s.tcam_db parms.dir) parms.type (parms.idx / sc)).rc = 0
  · by_cases hb : (C.tf_rm_is_allocated
        (f (C.tf_session_get_device (C.tf_session_get_session s.world).world
          (C.tf_session_get_session s.world).val).world parms.type parms.key_size).world
        (s.tcam_db parms.dir) parms.type (parms.idx / sc)).out.getD 0 = 0
    · simp [tf_tcam_set, State.emit, State.callsSince, isAllocatedQueries, hinit, h1rc, h2rc,
        hops, h3rc, h3out, hsc16, hsc0, ha, hb]
    · simp [tf_tcam_set, State.emit, State.callsSince, isAllocatedQueries, hinit, h1rc, h2rc,
        hops, h3rc, h3out, hsc16, hsc0, ha, hb]
  · simp [tf_tcam_set, State.emit, State.callsSince, isAllocatedQueries, hinit, h1rc, h2rc,
      hops, h3rc, h3out, hsc16, hsc0, ha]

/-! ### Pools of the modelled Index Database -/

/-- A pool has a free flag exactly when fewer flags are set than it has. -/
theorem pool_free_iff_count (pool : List Bool) :
    pool.indexOf false < pool.length ↔ pool.count true < pool.length := by
  rw [List.indexOf_lt_length]
  constructor
  · intro hmem
    apply lt_of_le_of_ne (List.count_le_length true pool)
    intro heq
    have := (List.count_eq_length.1 heq) false hmem
    exact absurd this (by decide)
  · intro hlt
    by_contra hmem
    apply absurd hlt
    have : pool.count true = pool.length := by
      apply List.count_eq_length.2
      intro b hb
      cases b with
      | true => rfl
      | false => exact absurd hb hmem
    omega

/-- Setting a free flag raises the number of set flags by one. -/
theorem pool_count_set_true (pool : List Bool) (i : Nat) (h : pool[i]? = some false) :
    (pool.set i true).count true = pool.count true + 1 := by
  induction pool generalizing i with
  | nil => simp at h
  | cons x xs ih =>
    cases i with
    | zero =>
      simp at h
      simp [h, List.count_cons]
    | succ j =>
      simp at h
      simp [List.count_cons, ih j h]
      omega

/-- Clearing a set flag lowers the number of set flags by one. -/
theorem pool_count_set_false (pool : List Bool) (i : Nat) (h : pool[i]? = some true) :
    (pool.set i false).count true + 1 = pool.count true := by
  induction pool generalizing i with
  | nil => simp at h
  | cons x xs ih =>
    cases i with
    | zero =>
      simp at h
      simp [h, List.count_cons]
    | succ j =>
      simp at h
      have := ih j h
      simp [List.count_cons]
      omega

/-- Reading the pool of type `t` after storing a database whose pool of type
`t` was replaced. -/
theorem World.pool_setDb {w : World} {h t : Nat} {db : RmDb} {pool pool1 : List Bool}
    (hdb : w.db h = some db) (hpool : db[t]? = some pool) :
    (w.setDb h (some (db.set t pool1))).pool h t = some pool1 := by
  have ht : t < db.length := by
    rcases List.getElem?_eq_some.1 hpool with ⟨ht, -⟩
    exact ht
  simp [World.pool, World.db_setDb hdb, List.getElem?_set_self ht]

/-- The parts of a pool lookup. -/
theorem World.pool_some {w : World} {h t : Nat} {pool : List Bool}
    (hp : w.pool h t = some pool) : ∃ db, w.db h = some db ∧ db[t]? = some pool := by
  unfold World.pool at hp
  cases hdb : w.db h with
  | none => simp [hdb] at hp
  | some db => exact ⟨db, rfl, by simpa [hdb] using hp⟩

/-- The modelled allocation on a pool: with a free flag it succeeds, stores
the lowest free index and sets its flag; without one it fails with `-ENOMEM`
and changes nothing. -/
theorem rm_allocate_pool {w : World} {h t : Nat} {pool : List Bool}
    (hp : w.pool h t = some pool) :
    (pool.indexOf false < pool.length →
      (rm_allocate w h t).rc = 0 ∧ (rm_allocate w h t).out = some (pool.indexOf false) ∧
      (rm_allocate w h t).world.pool h t = some (pool.set (pool.indexOf false) true)) ∧
    (¬ pool.indexOf false < pool.length →
      rm_allocate w h t = { rc := -ENOMEM, out := none, world := w }) := by
  obtain ⟨db, hdb, hpool⟩ := World.pool_some hp
  constructor
  · intro hfree
    refine ⟨by simp [rm_allocate, hdb, hpool, hfree], by simp [rm_allocate, hdb, hpool, hfree],
      ?_⟩
    simp only [rm_allocate, hdb, List.get?_eq_getElem?, hpool, hfree, if_true]
    exact World.pool_setDb hdb hpool
  · intro hfull
    simp [rm_allocate, hdb, hpool, hfull]

/-- The modelled is-allocated query on a pool: it reads the flag and changes
nothing. -/
theorem rm_is_allocated_pool {w : World} {h t : Nat} {pool : List Bool}
    (hp : w.pool h t = some pool) (i : Nat) :
    rm_is_allocated w h t i =
      { rc := 0, out := some (if pool.getD i false then 1 else 0), world := w } := by
  obtain ⟨db, hdb, hpool⟩ := World.pool_some hp
  simp [rm_is_allocated, hdb, hpool]

/-- The modelled release of a set flag: it succeeds and clears the flag. -/
theorem rm_free_pool {w : World} {h t : Nat} {pool : List Bool}
    (hp : w.pool h t = some pool) (i : Nat) (hi : pool.getD i false = true) :
    (rm_free w h t i).rc = 0 ∧
      (rm_free w h t i).world.pool h t = some (pool.set i false) := by
  obtain ⟨db, hdb, hpool⟩ := World.pool_some hp
  have hi1 : (pool[i]?).getD false = true := by simpa using hi
  refine ⟨by simp [rm_free, hdb, hpool, hi1], ?_⟩
  simp only [rm_free, hdb, List.get?_eq_getElem?, hpool, List.getD_eq_getElem?_getD, hi1,
    if_true]
  exact World.pool_setDb hdb hpool

/-! ### Alloc and free over the modelled Index Database -/

/-- Over the modelled collaborators, with the lookups succeeding, the code
and the collaborator state of `tf_tcam_alloc` are those of the modelled
allocation. -/
theorem spec_alloc_rc (w : Nat) (E : Env) (f : Nat → Nat → Int × Nat) (s : State World)
    (parms : tf_tcam_alloc_parms) (hbound : s.bound)
    (hsess : E.session_rc = 0) (hdev : E.device_rc = 0) (hslice : E.slice = some f)
    (hf : (f parms.type parms.key_size).1 = 0) :
    (tf_tcam_alloc w (specCollab E) s parms).1 =
        (rm_allocate s.world (s.tcam_db parms.dir) parms.type).rc ∧
      (tf_tcam_alloc w (specCollab E) s parms).2.2.world =
        (rm_allocate s.world (s.tcam_db parms.dir) parms.type).world ∧
      (tf_tcam_alloc w (specCollab E) s parms).2.2.init = s.init ∧
      (tf_tcam_alloc w (specCollab E) s parms).2.2.tcam_db = s.tcam_db := by
  have hinit : s.init ≠ 0 := hbound
  by_cases hrc : (rm_allocate s.world (s.tcam_db parms.dir) parms.type).rc = 0
  · simp [tf_tcam_alloc, specCollab, specDev, dev_get_tcam_slice_info, State.emit, hinit,
      hsess, hdev, hslice, hf, hrc]
  · simp [tf_tcam_alloc, specCollab, specDev, dev_get_tcam_slice_info, State.emit, hinit,
      hsess, hdev, hslice, hf, hrc]

/-- Over the modelled collaborators, with the lookups succeeding,
`tf_tcam_alloc` returns 0 when the pool of its (direction, type) has fewer
set flags than its length and `-ENOMEM` otherwise; the pool keeps its length
and gains one set flag exactly when the call returns 0. -/
theorem spec_alloc_pool (w : Nat) (E : Env) (f : Nat → Nat → Int × Nat) (s : State World)
    (parms : tf_tcam_alloc_parms) (pool : List Bool) (hbound : s.bound)
    (hsess : E.session_rc = 0) (hdev : E.device_rc = 0) (hslice : E.slice = some f)
    (hf : (f parms.type parms.key_size).1 = 0)
    (hp : s.pool parms.dir parms.type = some pool) :
    (tf_tcam_alloc w (specCollab E) s parms).1 =
        (if pool.count true < pool.length then 0 else -ENOMEM) ∧
      (tf_tcam_alloc w (specCollab E) s parms).2.2.bound ∧
      ∃ pool1, (tf_tcam_alloc w (specCollab E) s parms).2.2.pool parms.dir parms.type =
          some pool1 ∧
        pool1.length = pool.length ∧
        pool1.count true =
          (if pool.count true < pool.length then pool.count true + 1 else pool.count true) := by
  obtain ⟨hrc, hworld, hinit, hdb⟩ := spec_alloc_rc w E f s parms hbound hsess hdev hslice hf
  obtain ⟨hok, hfull⟩ := rm_allocate_pool hp
  have hb : (tf_tcam_alloc w (specCollab E) s parms).2.2.bound := by
    show (tf_tcam_alloc w (specCollab E) s parms).2.2.init ≠ 0
    rw [hinit]
    exact hbound
  by_cases hfree : pool.indexOf false < pool.length
  · obtain ⟨h1, h2, h3⟩ := hok hfree
    have hcount := (pool_free_iff_count pool).1 hfree
    have hflag : pool[pool.indexOf false]? = some false := by
      rw [List.getElem?_eq_getElem hfree, List.getElem_indexOf hfree]
    refine ⟨by rw [hrc, h1, if_pos hcount], hb, pool.set (pool.indexOf false) true, ?_, by simp,
      by rw [if_pos hcount]; exact pool_count_set_true pool _ hflag⟩
    unfold State.pool
    rw [hworld, hdb]
    exact h3
  · have hcount : ¬ pool.count true < pool.length := fun h =>
      hfree ((pool_free_iff_count pool).2 h)
    have h1 := hfull hfree
    refine ⟨by rw [hrc, h1, if_neg hcount], hb, pool, ?_, rfl, by rw [if_neg hcount]⟩
    unfold State.pool
    rw [hworld, hdb, h1]
    exact hp

/-- Over the modelled collaborators, with the lookups succeeding, the alloc
that follows a run of allocs for the same (direction, type) returns 0 when
the set flags plus the length of the run stay below the length of the pool,
and `-ENOMEM` otherwise. -/
theorem spec_allocSeq (w : Nat) (E : Env) (f : Nat → Nat → Int × Nat)
    (d : Fin TF_DIR_MAX) (t : Nat)
    (hsess : E.session_rc = 0) (hdev : E.device_rc = 0) (hslice : E.slice = some f)
    (hf : ∀ k, (f t k).1 = 0) (ks : List Nat) :
    ∀ (s : State World) (pool : List Bool) (k idx : Nat), s.bound →
      s.pool d t = some pool →
      (tf_tcam_alloc w (specCollab E) (allocSeq w E d t ks s)
        { dir := d, type := t, key_size := k, idx := idx }).1 =
        (if pool.count true + ks.length < pool.length then 0 else -ENOMEM) := by
  induction ks with
  | nil =>
    intro s pool k idx hbound hp
    have := (spec_alloc_pool w E f s { dir := d, type := t, key_size := k, idx := idx } pool
      hbound hsess hdev hslice (hf k) hp).1
    simpa [allocSeq] using this
  | cons k0 ks ih =>
    intro s pool k idx hbound hp
    obtain ⟨-, hb1, pool1, hp1, hlen, hcount⟩ :=
      spec_alloc_pool w E f s { dir := d, type := t, key_size := k0, idx := 0 } pool
        hbound hsess hdev hslice (hf k0) hp
    have := ih _ pool1 k idx hb1 hp1
    simp only [allocSeq, List.length_cons]
    rw [this, hlen, hcount]
    by_cases hlt : pool.count true < pool.length
    · simp only [if_pos hlt]
      have e : (pool.count true + 1 + ks.length < pool.length) ↔
          (pool.count true + (ks.length + 1) < pool.length) := by omega
      simp only [e]
    · simp only [if_neg hlt]
      have e1 : ¬ pool.count true + ks.length < pool.length := by omega
      have e2 : ¬ pool.count true + (ks.length + 1) < pool.length := by omega
      simp only [if_neg e1, if_neg e2]

/-- Over the modelled collaborators, with the lookups succeeding with slice
count `sc ≥ 1` for key size 0, a free whose descaled index has its flag set
returns 0 and clears that flag. -/
theorem spec_free_pool (E : Env) (f : Nat → Nat → Int × Nat) (s : State World)
    (parms : tf_tcam_free_parms) (pool : List Bool) (sc : Nat) (hbound : s.bound)
    (hsess : E.session_rc = 0) (hdev : E.device_rc = 0) (hslice : E.slice = some f)
    (h0 : f parms.type 0 = (0, sc)) (hsc1 : 1 ≤ sc) (hsc : sc < 2 ^ 16)
    (hp : s.pool parms.dir parms.type = some pool)
    (hset : pool.getD (parms.idx / sc) false = true) :
    ∃ s1, tf_tcam_free (specCollab E) s parms = some (0, s1) ∧ s1.bound ∧
      s1.pool parms.dir parms.type = some (pool.set (parms.idx / sc) false) := by
  obtain ⟨hrc, hpool1⟩ := rm_free_pool hp (parms.idx / sc) hset
  have hq := rm_is_allocated_pool hp (parms.idx / sc)
  have hres : Resolves (specCollab E) s.world parms.type 0 sc s.world :=
    ⟨hsess, hdev, dev_get_tcam_slice_info f, by simp [specCollab, specDev, hslice],
      by simp [dev_get_tcam_slice_info, h0], by simp [dev_get_tcam_slice_info, h0], hsc, rfl⟩
  have hset1 : (pool[parms.idx / sc]?).getD false = true := by simpa using hset
  have h := tf_tcam_free_resolved (specCollab E) s parms sc s.world _ _ _ hbound hres hsc1
    rfl (by simp only [specCollab]; rw [hq])
    (by simp only [specCollab]; rw [hq]; simp [hset1]) rfl
    (by simp only [specCollab]; rw [hq]; exact hrc) rfl
  refine ⟨_, h, hbound, ?_⟩
  simp only [specCollab, State.pool] at hpool1 ⊢
  rw [hq]
  exact hpool1

/-- Over the modelled collaborators, a bind that returns 0 leaves the manager
bound and gives every (direction, type) a pool with as many free flags as the
capacity table says. -/
theorem spec_bind_pool (E : Env) (s0 : State World) (cfg : tf_tcam_cfg_parms)
    (d : Fin TF_DIR_MAX) (t c : Nat)
    (hbind : (tf_tcam_bind (specCollab E) s0 cfg).1 = 0)
    (hcap : (cfg.tcam_cnt d).get? t = some c) :
    (tf_tcam_bind (specCollab E) s0 cfg).2.bound ∧
      (tf_tcam_bind (specCollab E) s0 cfg).2.pool d t = some (List.replicate c false) := by
  obtain ⟨hinit, hinit1⟩ := tf_tcam_bind_ok_init (specCollab E) s0 cfg hbind
  have hb : (tf_tcam_bind (specCollab E) s0 cfg).2.bound := by
    show (tf_tcam_bind (specCollab E) s0 cfg).2.init ≠ 0
    rw [hinit1]
    decide
  refine ⟨hb, ?_⟩
  by_cases hc0 : E.create_rc 0 = 0
  · by_cases hc1 : E.create_rc 1 = 0
    · obtain ⟨d, hd⟩ := d
      have hcap1 : (cfg.tcam_cnt d)[t]? = some c := by simpa using hcap
      interval_cases d
      · simp [tf_tcam_bind, tf_tcam_bind_loop, specCollab, rm_create_db, State.emit,
          State.pool, World.pool, World.db, hinit, hc0, hc1, Function.update, hcap1,
          List.getElem?_append, List.getElem_append_right]
      · simp [tf_tcam_bind, tf_tcam_bind_loop, specCollab, rm_create_db, State.emit,
          State.pool, World.pool, World.db, hinit, hc0, hc1, Function.update, hcap1,
          List.getElem?_append, List.getElem_append_right]
    · simp [tf_tcam_bind, tf_tcam_bind_loop, specCollab, rm_create_db, State.emit, hinit,
        hc0, hc1] at hbind
  · simp [tf_tcam_bind, tf_tcam_bind_loop, specCollab, rm_create_db, State.emit, hinit,
      hc0] at hbind

/-! ### The claims -/

/-- C1: on a bound manager whose session and device lookups succeed, whose
device has a slice-info query that succeeds storing slice count `sc`, and
whose Index Database allocation for (direction, type) succeeds storing
logical index `l`, `tf_tcam_alloc` returns 0 and leaves `l * sc`, reduced
modulo the width `w` of the index field, in `parms->idx`. -/
theorem tf_tcam_alloc_scaled_index {σ : Type} (w : Nat) (C : Collab σ) (s : State σ)
    (parms : tf_tcam_alloc_parms) (sc l : Nat)
    (r1 : Got Nat σ) (r2 : Got (tf_dev_info σ) σ)
    (get_tcam_slice_info : σ → Nat → Nat → Res Nat σ) (r3 r4 : Res Nat σ)
    (hbound : s.bound)
    (h1 : C.tf_session_get_session s.world = r1) (h1rc : r1.rc = 0)
    (h2 : C.tf_session_get_device r1.world r1.val = r2) (h2rc : r2.rc = 0)
    (hops : r2.val.ops.tf_dev_get_tcam_slice_info = some get_tcam_slice_info)
    (h3 : get_tcam_slice_info r2.world parms.type parms.key_size = r3)
    (h3rc : r3.rc = 0) (h3out : r3.out = some sc) (hsc : sc < 2 ^ 16)
    (h4 : C.tf_rm_allocate r3.world (s.tcam_db parms.dir) parms.type = r4)
    (h4rc : r4.rc = 0) (h4out : r4.out = some l) :
    (tf_tcam_alloc w C s parms).1 = 0 ∧
      (tf_tcam_alloc w C s parms).2.1.idx = (l * sc) % 2 ^ w := by
  rw [tf_tcam_alloc_ok_result w C s parms sc l r1 r2 get_tcam_slice_info r3 r4
    hbound h1 h1rc h2 h2rc hops h3 h3rc h3out hsc h4 h4rc h4out]
  exact ⟨rfl, rfl⟩

/-- Witness for C1: capacity 4, two slices per row, 16-bit index field; the
second allocation gets logical index 1 and hardware index 2. -/
theorem tf_tcam_alloc_scaled_index_witness :
    (tf_tcam_alloc 16 (specCollab (Env.ok 2))
        ((tf_tcam_alloc 16 (specCollab (Env.ok 2)) (boundState [4])
          { dir := 0, type := 0, key_size := 0, idx := 0 }).2.2)
        { dir := 0, type := 0, key_size := 0, idx := 0 }).1 = 0 ∧
      (tf_tcam_alloc 16 (specCollab (Env.ok 2))
        ((tf_tcam_alloc 16 (specCollab (Env.ok 2)) (boundState [4])
          { dir := 0, type := 0, key_size := 0, idx := 0 }).2.2)
        { dir := 0, type := 0, key_size := 0, idx := 0 }).2.1.idx = (1 * 2) % 2 ^ 16 :=
  tf_tcam_alloc_scaled_index 16 (specCollab (Env.ok 2))
    ((tf_tcam_alloc 16 (specCollab (Env.ok 2)) (boundState [4])
      { dir := 0, type := 0, key_size := 0, idx := 0 }).2.2)
    { dir := 0, type := 0, key_size := 0, idx := 0 } 2 1 _ _ _ _ _
    (by decide) rfl rfl rfl rfl rfl rfl rfl rfl (by decide) rfl rfl rfl

/-- C4: evaluation at the failing input.  On a bound manager with capacity 4
and nothing allocated, freeing hardware index 3 finds the entry not allocated
and returns 0, not an error code, after the four lookups. -/
theorem tf_tcam_free_not_allocated_example :
    (tf_tcam_free (specCollab (Env.ok 1)) (boundState [4])
        { dir := 0, type := 0, idx := 3 }).map
        (fun r => (r.1, r.2.world, r.2.callsSince (boundState [4]))) =
      some (0, (boundState [4]).world,
        [Call.tf_session_get_session 0, Call.tf_session_get_device 0,
         Call.tf_dev_get_tcam_slice_info 0 0 0, Call.tf_rm_is_allocated 1 0 3 0]) := by
  decide

/-- C5: evaluation at the failing input.  On a bound manager with capacity 4
and nothing allocated, setting hardware index 3 finds the entry not allocated
and returns 0, not an error code; no firmware message is sent. -/
theorem tf_tcam_set_not_allocated_example :
    (tf_tcam_set (specCollab (Env.ok 1)) (boundState [4])
        { dir := 0, type := 0, idx := 3, key_size := 0, entry := [] }).map
        (fun r => (r.1, r.2.world, r.2.callsSince (boundState [4]))) =
      some (0, (boundState [4]).world,
        [Call.tf_session_get_session 0, Call.tf_session_get_device 0,
         Call.tf_dev_get_tcam_slice_info 0 0 0, Call.tf_rm_is_allocated 1 0 3 0]) := by
  decide

/-- C6: double free is a no-op.  On a bound manager whose lookups succeed
with slice count `sc ≥ 1`, when the Index Database answers that the descaled
index `parms.idx / sc` is not allocated, `tf_tcam_free` returns 0; the init
flag and the handles are unchanged; the only collaborator calls are the four
lookups, so nothing is released and no firmware message is sent; and whatever
part `obs` of the collaborator state (allocation state, capacity counters)
the four lookups leave alone is unchanged. -/
theorem tf_tcam_free_not_allocated_noop {σ β : Type} (C : Collab σ) (s : State σ)
    (parms : tf_tcam_free_parms) (sc : Nat)
    (r1 : Got Nat σ) (r2 : Got (tf_dev_info σ) σ)
    (get_tcam_slice_info : σ → Nat → Nat → Res Nat σ) (r3 : Res Nat σ) (r4 : Res Int σ)
    (hbound : s.bound)
    (h1 : C.tf_session_get_session s.world = r1) (h1rc : r1.rc = 0)
    (h2 : C.tf_session_get_device r1.world r1.val = r2) (h2rc : r2.rc = 0)
    (hops : r2.val.ops.tf_dev_get_tcam_slice_info = some get_tcam_slice_info)
    (h3 : get_tcam_slice_info r2.world parms.type 0 = r3)
    (h3rc : r3.rc = 0) (h3out : r3.out = some sc) (hsc1 : 1 ≤ sc) (hsc : sc < 2 ^ 16)
    (h4 : C.tf_rm_is_allocated r3.world (s.tcam_db parms.dir) parms.type (parms.idx / sc) = r4)
    (h4rc : r4.rc = 0) (hfree : r4.out.getD 0 = 0) :
    tf_tcam_free C s parms =
        some (0, { s with
          world := r4.world
          trace := s.trace ++
            [Call.tf_session_get_session 0, Call.tf_session_get_device 0,
             Call.tf_dev_get_tcam_slice_info parms.type 0 0,
             Call.tf_rm_is_allocated (s.tcam_db parms.dir) parms.type (parms.idx / sc) 0] }) ∧
      ∀ obs : σ → β, obs r1.world = obs s.world → obs r2.world = obs r1.world →
        obs r3.world = obs r2.world → obs r4.world = obs r3.world →
        obs r4.world = obs s.world := by
  subst h1 h2 h3 h4
  have hinit : s.init ≠ 0 := hbound
  have hsc16 : sc % 65536 = sc := Nat.mod_eq_of_lt (by norm_num at hsc; exact hsc)
  have hsc0 : sc ≠ 0 := by omega
  refine ⟨?_, fun obs e1 e2 e3 e4 => by rw [e4, e3, e2, e1]⟩
  simp [tf_tcam_free, State.emit, hinit, h1rc, h2rc, hops, h3rc, h3out, h4rc, hfree,
    hsc16, hsc0]

/-- Witness for C6: capacity 4, nothing allocated, free of hardware index 3. -/
theorem tf_tcam_free_not_allocated_noop_witness :
    tf_tcam_free (specCollab (Env.ok 1)) (boundState [4]) { dir := 0, type := 0, idx := 3 } =
        some (0, { boundState [4] with
          world := (boundState [4]).world
          trace := (boundState [4]).trace ++
            [Call.tf_session_get_session 0, Call.tf_session_get_device 0,
             Call.tf_dev_get_tcam_slice_info 0 0 0,
             Call.tf_rm_is_allocated ((boundState [4]).tcam_db 0) 0 (3 / 1) 0] }) ∧
      ∀ obs : World → World, obs (boundState [4]).world = obs (boundState [4]).world →
        obs (boundState [4]).world = obs (boundState [4]).world →
        obs (boundState [4]).world = obs (boundState [4]).world →
        obs (boundState [4]).world = obs (boundState [4]).world →
        obs (boundState [4]).world = obs (boundState [4]).world :=
  tf_tcam_free_not_allocated_noop (specCollab (Env.ok 1)) (boundState [4])
    { dir := 0, type := 0, idx := 3 } 1 _ _ _ _ _
    (by decide) rfl rfl rfl rfl rfl rfl rfl rfl (by decide) (by decide) rfl rfl rfl

/-- C7: `tf_tcam_bind` on a bound manager returns `-EINVAL` and leaves the
whole state as it was: no call is added to the trace, so no Index Database is
created, and the init flag and the handles are unchanged. -/
theorem tf_tcam_bind_already_bound {σ : Type} (C : Collab σ) (s : State σ)
    (parms : tf_tcam_cfg_parms) (hbound : s.bound) :
    tf_tcam_bind C s parms = (-EINVAL, s) := by
  have hinit : s.init ≠ 0 := hbound
  simp [tf_tcam_bind, hinit]

/-- Witness for C7: a second bind on a bound manager with capacity 4. -/
theorem tf_tcam_bind_already_bound_witness :
    (boundState [4]).bound ∧
      tf_tcam_bind (specCollab (Env.ok 1)) (boundState [4]) (cfgOf [7]) =
        (-EINVAL, boundState [4]) :=
  ⟨by decide, tf_tcam_bind_already_bound (specCollab (Env.ok 1)) (boundState [4]) (cfgOf [7])
    (by decide)⟩

/-- C8: `tf_tcam_unbind` on a manager that is not bound returns `-EINVAL` and
leaves the whole state as it was: no call is added to the trace, so no Index
Database is destroyed, and the init flag and the handles are unchanged. -/
theorem tf_tcam_unbind_not_bound {σ : Type} (C : Collab σ) (s : State σ)
    (hunbound : ¬ s.bound) :
    tf_tcam_unbind C s = (-EINVAL, s) := by
  have hinit : s.init = 0 := by
    by_contra h
    exact hunbound h
  simp [tf_tcam_unbind, hinit]

/-- Witness for C8: unbind in the initial state. -/
theorem tf_tcam_unbind_not_bound_witness :
    ¬ (State.initial World.empty).bound ∧
      tf_tcam_unbind (specCollab (Env.ok 1)) (State.initial World.empty) =
        (-EINVAL, State.initial World.empty) :=
  ⟨by decide, tf_tcam_unbind_not_bound (specCollab (Env.ok 1)) (State.initial World.empty)
    (by decide)⟩

/-- C9: lifecycle reset.  After a bind that returns 0 and an unbind during
which no destroy call fails, the unbind returns 0, the handle of every
direction is `NULL` and the init flag is 0; a further bind, with any capacity
table, during which no creation call fails returns 0 and leaves the manager
bound. -/
theorem tf_tcam_bind_unbind_bind {σ : Type} (C : Collab σ) (s : State σ)
    (p1 p2 : tf_tcam_cfg_parms)
    (hbind : (tf_tcam_bind C s p1).1 = 0)
    (hdestroy : ∀ c ∈ (tf_tcam_unbind C (tf_tcam_bind C s p1).2).2.callsSince
      (tf_tcam_bind C s p1).2, c.failedDestroy = false)
    (hcreate : ∀ c ∈
      (tf_tcam_bind C (tf_tcam_unbind C (tf_tcam_bind C s p1).2).2 p2).2.callsSince
        (tf_tcam_unbind C (tf_tcam_bind C s p1).2).2, c.failedCreate = false) :
    (tf_tcam_unbind C (tf_tcam_bind C s p1).2).1 = 0 ∧
      (∀ d, d < TF_DIR_MAX → (tf_tcam_unbind C (tf_tcam_bind C s p1).2).2.tcam_db d = 0) ∧
      (tf_tcam_unbind C (tf_tcam_bind C s p1).2).2.init = 0 ∧
      (tf_tcam_bind C (tf_tcam_unbind C (tf_tcam_bind C s p1).2).2 p2).1 = 0 ∧
      (tf_tcam_bind C (tf_tcam_unbind C (tf_tcam_bind C s p1).2).2 p2).2.bound := by
  have hb1 : (tf_tcam_bind C s p1).2.init ≠ 0 := by
    rw [(tf_tcam_bind_ok_init C s p1 hbind).2]
    decide
  obtain ⟨hu, hu0, huh⟩ := tf_tcam_unbind_bound_ok C _ hb1 hdestroy
  obtain ⟨hb, hbi, -, -⟩ := tf_tcam_bind_unbound_ok C _ p2 hu0 hcreate
  refine ⟨hu, huh, hu0, hb, ?_⟩
  show (tf_tcam_bind C (tf_tcam_unbind C (tf_tcam_bind C s p1).2).2 p2).2.init ≠ 0
  rw [hbi]
  decide

/-- Witness for C9: bind with capacity 4, unbind, bind with capacities 7 and 3. -/
theorem tf_tcam_bind_unbind_bind_witness :
    (tf_tcam_unbind (specCollab (Env.ok 1))
        (tf_tcam_bind (specCollab (Env.ok 1)) (State.initial World.empty) (cfgOf [4])).2).1 = 0 ∧
      (∀ d, d < TF_DIR_MAX → (tf_tcam_unbind (specCollab (Env.ok 1))
        (tf_tcam_bind (specCollab (Env.ok 1)) (State.initial World.empty)
          (cfgOf [4])).2).2.tcam_db d = 0) ∧
      (tf_tcam_unbind (specCollab (Env.ok 1))
        (tf_tcam_bind (specCollab (Env.ok 1)) (State.initial World.empty)
          (cfgOf [4])).2).2.init = 0 ∧
      (tf_tcam_bind (specCollab (Env.ok 1)) (tf_tcam_unbind (specCollab (Env.ok 1))
        (tf_tcam_bind (specCollab (Env.ok 1)) (State.initial World.empty)
          (cfgOf [4])).2).2 (cfgOf [7, 3])).1 = 0 ∧
      (tf_tcam_bind (specCollab (Env.ok 1)) (tf_tcam_unbind (specCollab (Env.ok 1))
        (tf_tcam_bind (specCollab (Env.ok 1)) (State.initial World.empty)
          (cfgOf [4])).2).2 (cfgOf [7, 3])).2.bound :=
  tf_tcam_bind_unbind_bind (specCollab (Env.ok 1)) (State.initial World.empty)
    (cfgOf [4]) (cfgOf [7, 3]) (by decide) (by decide) (by decide)

/-- C3, as stated, fails where `l * s` does not fit the index field.  With a
16-bit field, logical index 40000 and 2 slices per row, alloc returns 14464
and set descales it to 7232; with a 32-bit field, logical index 2^31 and 2
slices per row, alloc returns 0 and set descales it to 0. -/
theorem tf_tcam_set_descale_counterexample :
    ((tf_tcam_alloc 16 (stubCollab 40000 2) stubBound
        { dir := 0, type := 0, key_size := 0, idx := 0 }).1 = 0 ∧
      (tf_tcam_alloc 16 (stubCollab 40000 2) stubBound
        { dir := 0, type := 0, key_size := 0, idx := 0 }).2.1.idx = 14464 ∧
      (tf_tcam_set (stubCollab 40000 2) stubBound
        { dir := 0, type := 0, idx := 14464, key_size := 0, entry := [] }).map
          (fun r => isAllocatedQueries (r.2.callsSince stubBound)) = some [7232] ∧
      (7232 : Nat) ≠ 40000) ∧
    ((tf_tcam_alloc 32 (stubCollab (2 ^ 31) 2) stubBound
        { dir := 0, type := 0, key_size := 0, idx := 0 }).1 = 0 ∧
      (tf_tcam_alloc 32 (stubCollab (2 ^ 31) 2) stubBound
        { dir := 0, type := 0, key_size := 0, idx := 0 }).2.1.idx = 0 ∧
      (tf_tcam_set (stubCollab (2 ^ 31) 2) stubBound
        { dir := 0, type := 0, idx := 0, key_size := 0, entry := [] }).map
          (fun r => isAllocatedQueries (r.2.callsSince stubBound)) = some [0] ∧
      (0 : Nat) ≠ 2 ^ 31) := by
  decide

/-- C3, amended: let alloc succeed on a bound manager with slice count
`sc ≥ 1` and logical index `l`, where `l * sc` fits the `w`-bit index field.
When `tf_tcam_set` is then called on a bound manager with the hardware index
alloc returned, the same direction, type and key size, and its lookups
succeed with the same slice count, the one is-allocated query it makes is for
logical index `l`. -/
theorem tf_tcam_set_descales_alloc_index {σ : Type} (w : Nat) (C : Collab σ)
    (s s1 : State σ) (parms : tf_tcam_alloc_parms) (entry : List Nat) (sc l : Nat)
    (r1 q1 : Got Nat σ) (r2 q2 : Got (tf_dev_info σ) σ)
    (get_tcam_slice_info get_tcam_slice_info1 : σ → Nat → Nat → Res Nat σ)
    (r3 r4 q3 : Res Nat σ)
    (hbound : s.bound)
    (h1 : C.tf_session_get_session s.world = r1) (h1rc : r1.rc = 0)
    (h2 : C.tf_session_get_device r1.world r1.val = r2) (h2rc : r2.rc = 0)
    (hops : r2.val.ops.tf_dev_get_tcam_slice_info = some get_tcam_slice_info)
    (h3 : get_tcam_slice_info r2.world parms.type parms.key_size = r3)
    (h3rc : r3.rc = 0) (h3out : r3.out = some sc) (hsc1 : 1 ≤ sc) (hsc : sc < 2 ^ 16)
    (h4 : C.tf_rm_allocate r3.world (s.tcam_db parms.dir) parms.type = r4)
    (h4rc : r4.rc = 0) (h4out : r4.out = some l) (hfit : l * sc < 2 ^ w)
    (hbound1 : s1.bound)
    (g1 : C.tf_session_get_session s1.world = q1) (g1rc : q1.rc = 0)
    (g2 : C.tf_session_get_device q1.world q1.val = q2) (g2rc : q2.rc = 0)
    (gops : q2.val.ops.tf_dev_get_tcam_slice_info = some get_tcam_slice_info1)
    (g3 : get_tcam_slice_info1 q2.world parms.type parms.key_size = q3)
    (g3rc : q3.rc = 0) (g3out : q3.out = some sc) :
    ∃ r, tf_tcam_set C s1
        { dir := parms.dir, type := parms.type, idx := (tf_tcam_alloc w C s parms).2.1.idx,
          key_size := parms.key_size, entry := entry } = some r ∧
      isAllocatedQueries (r.2.callsSince s1) = [l] := by
  rw [tf_tcam_alloc_ok_result w C s parms sc l r1 r2 get_tcam_slice_info r3 r4
    hbound h1 h1rc h2 h2rc hops h3 h3rc h3out hsc h4 h4rc h4out]
  simp only [Nat.mod_eq_of_lt hfit]
  subst g1 g2 g3
  have hinit : s1.init ≠ 0 := hbound1
  have hsc16 : sc % 65536 = sc := Nat.mod_eq_of_lt (by norm_num at hsc; exact hsc)
  have hsc0 : sc ≠ 0 := by omega
  have hdiv : l * sc / sc = l := Nat.mul_div_cancel l (by omega)
  by_cases ha : (C.tf_rm_is_allocated
      (get_tcam_slice_info1 (C.tf_session_get_device (C.tf_session_get_session s1.world).world
        (C.tf_session_get_session s1.world).val).world parms.type parms.key_size).world
      (s1.tcam_db parms.dir) parms.type l).rc = 0
  · by_cases hb : (C.tf_rm_is_allocated
        (get_tcam_slice_info1 (C.tf_session_get_device (C.tf_session_get_session s1.world).world
          (C.tf_session_get_session s1.world).val).world parms.type parms.key_size).world
        (s1.tcam_db parms.dir) parms.type l).out.getD 0 = 0
    · simp [tf_tcam_set, State.emit, State.callsSince, isAllocatedQueries, hinit, g1rc, g2rc,
        gops, g3rc, g3out, hsc16, hsc0, hdiv, ha, hb]
    · simp [tf_tcam_set, State.emit, State.callsSince, isAllocatedQueries, hinit, g1rc, g2rc,
        gops, g3rc, g3out, hsc16, hsc0, hdiv, ha, hb]
  · simp [tf_tcam_set, State.emit, State.callsSince, isAllocatedQueries, hinit, g1rc, g2rc,
      gops, g3rc, g3out, hsc16, hsc0, hdiv, ha]

/-- Witness for C3: capacity 4, two slices per row, 16-bit index field; the
second allocation gets logical index 1, and set on its hardware index asks
the Index Database about logical index 1. -/
theorem tf_tcam_set_descales_alloc_index_witness :
    ∃ r, tf_tcam_set (specCollab (Env.ok 2)) (allocOnce 16 (Env.ok 2) 0 (boundState [4]))
        { dir := 0, type := 0,
          idx := (tf_tcam_alloc 16 (specCollab (Env.ok 2))
            (allocOnce 16 (Env.ok 2) 0 (boundState [4]))
            { dir := 0, type := 0, key_size := 0, idx := 0 }).2.1.idx,
          key_size := 0, entry := [5] } = some r ∧
      isAllocatedQueries
        (r.2.callsSince (allocOnce 16 (Env.ok 2) 0 (boundState [4]))) = [1] :=
  tf_tcam_set_descales_alloc_index 16 (specCollab (Env.ok 2))
    (allocOnce 16 (Env.ok 2) 0 (boundState [4])) (allocOnce 16 (Env.ok 2) 0 (boundState [4]))
    { dir := 0, type := 0, key_size := 0, idx := 0 } [5] 2 1 _ _ _ _ _ _ _ _ _
    (by decide) rfl rfl rfl rfl rfl rfl rfl rfl (by decide) (by decide) rfl rfl rfl (by decide)
    (by decide) rfl rfl rfl rfl rfl rfl rfl rfl

/-- C2, as stated, fails when the slice count depends on the key size.  With
one slice per row for key size 1 and two for key size 0, capacity 4 and
logical index 0 already allocated: alloc with key size 1 reserves logical
index 1 and returns hardware index 1; the free that follows descales 1 to 0,
releases logical index 0 and returns 0.  Index 1 stays allocated and index 0
is lost. -/
theorem tf_tcam_alloc_free_counterexample :
    (allocOnce 16 (Env.byKey 2 1) 1 (boundState [4])).world =
        { dbs := [some [[true, false, false, false]], some [[false, false, false, false]]] } ∧
      (tf_tcam_alloc 16 (specCollab (Env.byKey 2 1))
        (allocOnce 16 (Env.byKey 2 1) 1 (boundState [4]))
        { dir := 0, type := 0, key_size := 1, idx := 0 }).1 = 0 ∧
      (tf_tcam_alloc 16 (specCollab (Env.byKey 2 1))
        (allocOnce 16 (Env.byKey 2 1) 1 (boundState [4]))
        { dir := 0, type := 0, key_size := 1, idx := 0 }).2.1.idx = 1 ∧
      (tf_tcam_free (specCollab (Env.byKey 2 1))
        (allocOnce 16 (Env.byKey 2 1) 1 (allocOnce 16 (Env.byKey 2 1) 1 (boundState [4])))
        { dir := 0, type := 0, idx := 1 }).map (fun r => (r.1, r.2.world)) =
        some (0,
          { dbs := [some [[false, true, false, false]], some [[false, false, false, false]]] }) := by
  decide

/-- C2, amended, over the modelled Index Database: let alloc succeed on a
bound manager with slice count `sc ≥ 1` and logical index `l`, where the
slice-info query answers the same for key size 0 as for the key size of the
alloc and `l * sc` fits the `w`-bit index field.  Then alloc returns 0, and
the free that follows on the hardware index alloc returned returns 0,
releases logical index `l` under the handle and type alloc used, and leaves
the collaborator state, the init flag and the handles as they were before
the alloc. -/
theorem tf_tcam_alloc_then_free_restores (w : Nat) (E : Env) (s : State World)
    (parms : tf_tcam_alloc_parms) (f : Nat → Nat → Int × Nat) (sc l : Nat)
    (hbound : s.bound) (hsess : E.session_rc = 0) (hdev : E.device_rc = 0)
    (hslice : E.slice = some f)
    (hk : f parms.type parms.key_size = (0, sc)) (h0 : f parms.type 0 = (0, sc))
    (hsc1 : 1 ≤ sc) (hsc : sc < 2 ^ 16)
    (hrc : (rm_allocate s.world (s.tcam_db parms.dir) parms.type).rc = 0)
    (hout : (rm_allocate s.world (s.tcam_db parms.dir) parms.type).out = some l)
    (hfit : l * sc < 2 ^ w) :
    (tf_tcam_alloc w (specCollab E) s parms).1 = 0 ∧
      tf_tcam_free (specCollab E) (tf_tcam_alloc w (specCollab E) s parms).2.2
          { dir := parms.dir, type := parms.type,
            idx := (tf_tcam_alloc w (specCollab E) s parms).2.1.idx } =
        some (0, { s with
          trace := s.trace ++
            [Call.tf_session_get_session 0, Call.tf_session_get_device 0,
             Call.tf_dev_get_tcam_slice_info parms.type parms.key_size 0,
             Call.tf_rm_allocate (s.tcam_db parms.dir) parms.type 0,
             Call.tf_session_get_session 0, Call.tf_session_get_device 0,
             Call.tf_dev_get_tcam_slice_info parms.type 0 0,
             Call.tf_rm_is_allocated (s.tcam_db parms.dir) parms.type l 0,
             Call.tf_rm_free (s.tcam_db parms.dir) parms.type l 0,
             Call.tf_msg_tcam_entry_free parms.dir parms.type (l * sc) E.msg_free_rc] }) := by
  have hdiv : l * sc / sc = l := Nat.mul_div_cancel l (by omega)
  obtain ⟨hq, hfree⟩ := rm_free_after_allocate hrc hout
  have ha := tf_tcam_alloc_ok_result w (specCollab E) s parms sc l _ _
    (dev_get_tcam_slice_info f) _ _ hbound rfl hsess rfl hdev
    (by simp [specCollab, specDev, hslice]) rfl
    (by simp [dev_get_tcam_slice_info, hk]) (by simp [dev_get_tcam_slice_info, hk]) hsc
    rfl hrc hout
  rw [ha]
  refine ⟨rfl, ?_⟩
  simp only [Nat.mod_eq_of_lt hfit]
  have hf := tf_tcam_free_ok_result (specCollab E)
    { s with
      world := (rm_allocate s.world (s.tcam_db parms.dir) parms.type).world
      trace := s.trace ++
        [Call.tf_session_get_session 0, Call.tf_session_get_device 0,
         Call.tf_dev_get_tcam_slice_info parms.type parms.key_size 0,
         Call.tf_rm_allocate (s.tcam_db parms.dir) parms.type 0] }
    { dir := parms.dir, type := parms.type, idx := l * sc } sc _ _
    (dev_get_tcam_slice_info f) _ _ _ _ hbound rfl hsess rfl hdev
    (by simp [specCollab, specDev, hslice]) rfl
    (by simp [dev_get_tcam_slice_info, h0]) (by simp [dev_get_tcam_slice_info, h0]) hsc1 hsc
    rfl (by simp [specCollab, dev_get_tcam_slice_info, hdiv, hq])
    (by simp [specCollab, dev_get_tcam_slice_info, hdiv, hq]) rfl
    (by simp [specCollab, dev_get_tcam_slice_info, hdiv, hq, hfree]) rfl
  simp only [specCollab, dev_get_tcam_slice_info] at hf ⊢
  rw [hf]
  simp [hdiv, hq, hfree]

/-- Witness for C2: capacity 4, two slices per row whatever the key size,
16-bit index field, logical index 0 already allocated; the alloc reserves
logical index 1. -/
theorem tf_tcam_alloc_then_free_restores_witness :
    (tf_tcam_alloc 16 (specCollab (Env.ok 2)) (allocOnce 16 (Env.ok 2) 0 (boundState [4]))
        { dir := 0, type := 0, key_size := 3, idx := 0 }).1 = 0 ∧
      tf_tcam_free (specCollab (Env.ok 2))
          (tf_tcam_alloc 16 (specCollab (Env.ok 2))
            (allocOnce 16 (Env.ok 2) 0 (boundState [4]))
            { dir := 0, type := 0, key_size := 3, idx := 0 }).2.2
          { dir := 0, type := 0,
            idx := (tf_tcam_alloc 16 (specCollab (Env.ok 2))
              (allocOnce 16 (Env.ok 2) 0 (boundState [4]))
              { dir := 0, type := 0, key_size := 3, idx := 0 }).2.1.idx } =
        some (0, { allocOnce 16 (Env.ok 2) 0 (boundState [4]) with
          trace := (allocOnce 16 (Env.ok 2) 0 (boundState [4])).trace ++
            [Call.tf_session_get_session 0, Call.tf_session_get_device 0,
             Call.tf_dev_get_tcam_slice_info 0 3 0,
             Call.tf_rm_allocate ((allocOnce 16 (Env.ok 2) 0 (boundState [4])).tcam_db 0) 0 0,
             Call.tf_session_get_session 0, Call.tf_session_get_device 0,
             Call.tf_dev_get_tcam_slice_info 0 0 0,
             Call.tf_rm_is_allocated
               ((allocOnce 16 (Env.ok 2) 0 (boundState [4])).tcam_db 0) 0 1 0,
             Call.tf_rm_free ((allocOnce 16 (Env.ok 2) 0 (boundState [4])).tcam_db 0) 0 1 0,
             Call.tf_msg_tcam_entry_free 0 0 (1 * 2) 0] }) :=
  tf_tcam_alloc_then_free_restores 16 (Env.ok 2) (allocOnce 16 (Env.ok 2) 0 (boundState [4]))
    { dir := 0, type := 0, key_size := 3, idx := 0 } (fun _ _ => (0, 2)) 2 1
    (by decide) rfl rfl rfl rfl rfl (by decide) (by decide) (by decide) (by decide) (by decide)

/-- C10, as stated, fails after a partial failure.  A bind whose creation
succeeds for direction 0 and fails for direction 1 leaves the handle of
direction 0 set on an unbound manager; an unbind whose destroy succeeds for
direction 0 and fails for direction 1 leaves the handle of direction 0
`NULL` on a bound manager. -/
theorem handles_iff_bound_counterexample :
    (∃ s, run 16 (specCollab (Env.createFails 1 (-ENOMEM))) (State.initial World.empty)
        [Op.bind (cfgOf [4])] = some s ∧
      s.init = 0 ∧ s.tcam_db 0 = 1 ∧ s.tcam_db 1 = 0 ∧ ¬ HandlesIffBound s) ∧
    (∃ s, run 16 (specCollab (Env.destroyFails 1 (-EINVAL))) (State.initial World.empty)
        [Op.bind (cfgOf [4]), Op.unbind] = some s ∧
      s.init = 1 ∧ s.tcam_db 0 = 0 ∧ s.tcam_db 1 = 2 ∧ ¬ HandlesIffBound s) := by
  refine ⟨⟨_, rfl, by decide, by decide, by decide, ?_⟩, ⟨_, rfl, by decide, by decide,
    by decide, ?_⟩⟩
  · intro h
    exact absurd ((h 0 (by decide)).1 (by decide)) (by decide)
  · intro h
    exact absurd ((h 0 (by decide)).2 (by decide)) (by decide)

/-- C10, amended: in every state reached from the initial state by a sequence
of bind, unbind, alloc, free and set calls during which no Index Database
creation or destruction call failed (any other collaborator may fail), each
direction has a database handle exactly when the manager is bound.  A
successful creation is taken to store a non-null handle. -/
theorem handles_iff_bound_reachable {σ : Type} (w : Nat) (C : Collab σ) (w0 : σ)
    (ops : List Op) (s : State σ)
    (hC : ∀ x p, (C.tf_rm_create_db x p).rc = 0 →
      ∃ h, h ≠ 0 ∧ (C.tf_rm_create_db x p).out = some h)
    (hrun : run w C (State.initial w0) ops = some s)
    (hok : ∀ c ∈ s.trace, c.failedCreate = false ∧ c.failedDestroy = false) :
    HandlesIffBound s := by
  refine run_handles_iff_bound w C hC ops (State.initial w0) s ?_ hrun hok
  intro d _
  simp [State.initial, State.bound]

/-- Witness for C10: with a failing session lookup, bind, a failed alloc, a
failed free, a failed set, unbind and bind again. -/
theorem handles_iff_bound_reachable_witness :
    HandlesIffBound
      ((run 16 (specCollab (Env.sessionFails (-EINVAL))) (State.initial World.empty)
        [Op.bind (cfgOf [4]), Op.alloc { dir := 0, type := 0, key_size := 0, idx := 0 },
         Op.free { dir := 1, type := 0, idx := 0 },
         Op.set { dir := 0, type := 0, idx := 0, key_size := 0, entry := [] },
         Op.unbind, Op.bind (cfgOf [2])]).getD (State.initial World.empty)) :=
  handles_iff_bound_reachable 16 (specCollab (Env.sessionFails (-EINVAL))) World.empty
    [Op.bind (cfgOf [4]), Op.alloc { dir := 0, type := 0, key_size := 0, idx := 0 },
     Op.free { dir := 1, type := 0, idx := 0 },
     Op.set { dir := 0, type := 0, idx := 0, key_size := 0, entry := [] },
     Op.unbind, Op.bind (cfgOf [2])] _
    (specCollab_create_handle (Env.sessionFails (-EINVAL))) rfl (by decide)

/-- C13: on a manager that is not bound, `tf_tcam_alloc`, `tf_tcam_free` and
`tf_tcam_set` each return `-EINVAL` for every input and leave the whole state
as it was: no call is added to the trace, so neither the device capability,
nor the Index Database, nor the firmware is touched, and the parameter block
of alloc is returned as it came. -/
theorem tf_tcam_ops_not_bound {σ : Type} (w : Nat) (C : Collab σ) (s : State σ)
    (aparms : tf_tcam_alloc_parms) (fparms : tf_tcam_free_parms)
    (sparms : tf_tcam_set_parms) (hunbound : ¬ s.bound) :
    tf_tcam_alloc w C s aparms = (-EINVAL, aparms, s) ∧
      tf_tcam_free C s fparms = some (-EINVAL, s) ∧
      tf_tcam_set C s sparms = some (-EINVAL, s) := by
  have hinit : s.init = 0 := by
    by_contra h
    exact hunbound h
  simp [tf_tcam_alloc, tf_tcam_free, tf_tcam_set, hinit]

/-- Witness for C13: the three calls in the initial state. -/
theorem tf_tcam_ops_not_bound_witness :
    ¬ (State.initial World.empty).bound ∧
      tf_tcam_alloc 16 (specCollab (Env.ok 1)) (State.initial World.empty)
          { dir := 1, type := 2, key_size := 3, idx := 4 } =
        (-EINVAL, { dir := 1, type := 2, key_size := 3, idx := 4 },
          State.initial World.empty) ∧
      tf_tcam_free (specCollab (Env.ok 1)) (State.initial World.empty)
          { dir := 1, type := 2, idx := 4 } = some (-EINVAL, State.initial World.empty) ∧
      tf_tcam_set (specCollab (Env.ok 1)) (State.initial World.empty)
          { dir := 1, type := 2, idx := 4, key_size := 3, entry := [9] } =
        some (-EINVAL, State.initial World.empty) :=
  ⟨by decide, tf_tcam_ops_not_bound 16 (specCollab (Env.ok 1)) (State.initial World.empty)
    { dir := 1, type := 2, key_size := 3, idx := 4 } { dir := 1, type := 2, idx := 4 }
    { dir := 1, type := 2, idx := 4, key_size := 3, entry := [9] } (by decide)⟩

/-- C15, as stated, fails: both stubs return 0, which is the success code
and not `-EOPNOTSUPP`. -/
theorem tf_tcam_stubs_counterexample :
    (tf_tcam_alloc_search (boundState [4])).1 = 0 ∧
      (tf_tcam_get (boundState [4])).1 = 0 ∧ (0 : Int) ≠ -EOPNOTSUPP := by
  decide

/-- C15, amended: `tf_tcam_alloc_search` and `tf_tcam_get` are stubs that do
no work: for every input they return 0 and leave the whole state as it was,
with no collaborator call. -/
theorem tf_tcam_stubs_return_zero {σ : Type} (s : State σ) :
    tf_tcam_alloc_search s = (0, s) ∧ tf_tcam_get s = (0, s) :=
  ⟨rfl, rfl⟩

/-- C16: `tf_tcam_alloc` never sends a firmware message, whatever the state
and the collaborators do.  On a bound manager whose session and device
lookups succeed: when the device has no slice-info query the result is
`-EOPNOTSUPP`, and when the query fails its code is returned unchanged; in
both cases the parameter block comes back as it was and the calls made are
the lookups only, so no logical index is requested from the Index Database. -/
theorem tf_tcam_alloc_slice_info_failure {σ : Type} (w : Nat) (C : Collab σ) (s : State σ)
    (parms : tf_tcam_alloc_parms) :
    (∀ c ∈ (tf_tcam_alloc w C s parms).2.2.callsSince s, c.isFirmware = false) ∧
      (s.bound → (C.tf_session_get_session s.world).rc = 0 →
        (C.tf_session_get_device (C.tf_session_get_session s.world).world
          (C.tf_session_get_session s.world).val).rc = 0 →
        ((C.tf_session_get_device (C.tf_session_get_session s.world).world
            (C.tf_session_get_session s.world).val).val.ops.tf_dev_get_tcam_slice_info = none →
          tf_tcam_alloc w C s parms =
            (-EOPNOTSUPP, parms, { s with
              world := (C.tf_session_get_device (C.tf_session_get_session s.world).world
                (C.tf_session_get_session s.world).val).world
              trace := s.trace ++
                [Call.tf_session_get_session 0, Call.tf_session_get_device 0] })) ∧
        (∀ get_tcam_slice_info,
          (C.tf_session_get_device (C.tf_session_get_session s.world).world
            (C.tf_session_get_session s.world).val).val.ops.tf_dev_get_tcam_slice_info =
              some get_tcam_slice_info →
          (get_tcam_slice_info
            (C.tf_session_get_device (C.tf_session_get_session s.world).world
              (C.tf_session_get_session s.world).val).world
            parms.type parms.key_size).rc ≠ 0 →
          tf_tcam_alloc w C s parms =
            ((get_tcam_slice_info
              (C.tf_session_get_device (C.tf_session_get_session s.world).world
                (C.tf_session_get_session s.world).val).world
              parms.type parms.key_size).rc, parms, { s with
              world := (get_tcam_slice_info
                (C.tf_session_get_device (C.tf_session_get_session s.world).world
                  (C.tf_session_get_session s.world).val).world
                parms.type parms.key_size).world
              trace := s.trace ++
                [Call.tf_session_get_session 0, Call.tf_session_get_device 0,
                 Call.tf_dev_get_tcam_slice_info parms.type parms.key_size
                  (get_tcam_slice_info
                    (C.tf_session_get_device (C.tf_session_get_session s.world).world
                      (C.tf_session_get_session s.world).val).world
                    parms.type parms.key_size).rc] }))) := by
  constructor
  · unfold tf_tcam_alloc
    dsimp only
    repeat' split
    all_goals simp [State.callsSince, State.emit, Call.isFirmware]
  · intro hbound h1rc h2rc
    have hinit : s.init ≠ 0 := hbound
    constructor
    · intro hops
      simp [tf_tcam_alloc, State.emit, hinit, h1rc, h2rc, hops]
    · intro f hops h3rc
      simp [tf_tcam_alloc, State.emit, hinit, h1rc, h2rc, hops, h3rc]

/-- Witness for C16: a device without slice-info query, and a slice-info
query that fails with -5; in both runs the Index Database is not asked for an
index. -/
theorem tf_tcam_alloc_slice_info_failure_witness :
    (tf_tcam_alloc 16 (specCollab Env.noSlice) (boundState [4])
        { dir := 0, type := 0, key_size := 2, idx := 7 } =
      (-EOPNOTSUPP, { dir := 0, type := 0, key_size := 2, idx := 7 },
        { boundState [4] with
          world := (boundState [4]).world
          trace := (boundState [4]).trace ++
            [Call.tf_session_get_session 0, Call.tf_session_get_device 0] })) ∧
    (tf_tcam_alloc 16 (specCollab (Env.sliceFails (-5))) (boundState [4])
        { dir := 0, type := 0, key_size := 2, idx := 7 } =
      (-5, { dir := 0, type := 0, key_size := 2, idx := 7 },
        { boundState [4] with
          world := (boundState [4]).world
          trace := (boundState [4]).trace ++
            [Call.tf_session_get_session 0, Call.tf_session_get_device 0,
             Call.tf_dev_get_tcam_slice_info 0 2 (-5)] })) :=
  ⟨((tf_tcam_alloc_slice_info_failure 16 (specCollab Env.noSlice) (boundState [4])
      { dir := 0, type := 0, key_size := 2, idx := 7 }).2 (by decide) rfl rfl).1 rfl,
   ((tf_tcam_alloc_slice_info_failure 16 (specCollab (Env.sliceFails (-5))) (boundState [4])
      { dir := 0, type := 0, key_size := 2, idx := 7 }).2 (by decide) rfl rfl).2
      (dev_get_tcam_slice_info (fun _ _ => (-5, 1))) rfl (by decide)⟩

/-- C17: partial bind failure.  On an unbound manager, when the creation for
direction 0 succeeds storing handle `h` and the creation for direction 1
fails, `tf_tcam_bind` returns the code of the failed creation; the only calls
made are the two creations, so nothing is rolled back; the handle of
direction 0 stays `h`; the init flag stays 0, and a later bind passes the
init guard and starts again with a creation call for direction 0. -/
theorem tf_tcam_bind_partial_failure {σ : Type} (C : Collab σ) (s : State σ)
    (parms p2 : tf_tcam_cfg_parms) (r0 r1 : Res Nat σ) (h : Nat)
    (hunbound : ¬ s.bound)
    (h0 : C.tf_rm_create_db s.world
      { dir := 0, num_elements := parms.num_elements, cfg := parms.cfg,
        alloc_cnt := parms.tcam_cnt 0 } = r0)
    (h0rc : r0.rc = 0) (h0out : r0.out = some h) (hh : h ≠ 0)
    (h1 : C.tf_rm_create_db r0.world
      { dir := 1, num_elements := parms.num_elements, cfg := parms.cfg,
        alloc_cnt := parms.tcam_cnt 1 } = r1)
    (h1rc : r1.rc ≠ 0) :
    (tf_tcam_bind C s parms).1 = r1.rc ∧
      (tf_tcam_bind C s parms).2.init = 0 ∧
      (tf_tcam_bind C s parms).2.tcam_db 0 = h ∧
      (tf_tcam_bind C s parms).2.tcam_db 0 ≠ 0 ∧
      (tf_tcam_bind C s parms).2.world = r1.world ∧
      (tf_tcam_bind C s parms).2.trace =
        s.trace ++ [Call.tf_rm_create_db 0 0, Call.tf_rm_create_db 1 r1.rc] ∧
      ((tf_tcam_bind C (tf_tcam_bind C s parms).2 p2).2.callsSince
          (tf_tcam_bind C s parms).2).head? =
        some (Call.tf_rm_create_db 0
          (C.tf_rm_create_db r1.world
            { dir := 0, num_elements := p2.num_elements, cfg := p2.cfg,
              alloc_cnt := p2.tcam_cnt 0 }).rc) := by
  subst h0 h1
  have hinit : s.init = 0 := by
    by_contra hne
    exact hunbound hne
  have hres : tf_tcam_bind C s parms =
      ((C.tf_rm_create_db
          (C.tf_rm_create_db s.world
            { dir := 0, num_elements := parms.num_elements, cfg := parms.cfg,
              alloc_cnt := parms.tcam_cnt 0 }).world
          { dir := 1, num_elements := parms.num_elements, cfg := parms.cfg,
            alloc_cnt := parms.tcam_cnt 1 }).rc,
        { init := 0
          tcam_db := Function.update (Function.update s.tcam_db 0 h) 1
            ((C.tf_rm_create_db
              (C.tf_rm_create_db s.world
                { dir := 0, num_elements := parms.num_elements, cfg := parms.cfg,
                  alloc_cnt := parms.tcam_cnt 0 }).world
              { dir := 1, num_elements := parms.num_elements, cfg := parms.cfg,
                alloc_cnt := parms.tcam_cnt 1 }).out.getD (s.tcam_db 1))
          world := (C.tf_rm_create_db
            (C.tf_rm_create_db s.world
              { dir := 0, num_elements := parms.num_elements, cfg := parms.cfg,
                alloc_cnt := parms.tcam_cnt 0 }).world
            { dir := 1, num_elements := parms.num_elements, cfg := parms.cfg,
              alloc_cnt := parms.tcam_cnt 1 }).world
          trace := s.trace ++ [Call.tf_rm_create_db 0 0,
            Call.tf_rm_create_db 1 (C.tf_rm_create_db
              (C.tf_rm_create_db s.world
                { dir := 0, num_elements := parms.num_elements, cfg := parms.cfg,
                  alloc_cnt := parms.tcam_cnt 0 }).world
              { dir := 1, num_elements := parms.num_elements, cfg := parms.cfg,
                alloc_cnt := parms.tcam_cnt 1 }).rc] }) := by
    simp [tf_tcam_bind, tf_tcam_bind_loop, State.emit, hinit, h0rc, h0out, h1rc]
  rw [hres]
  refine ⟨rfl, rfl, by simp [Function.update], by simp [Function.update, hh], rfl, rfl, ?_⟩
  by_cases hc : (C.tf_rm_create_db
      (C.tf_rm_create_db
        (C.tf_rm_create_db s.world
          { dir := 0, num_elements := parms.num_elements, cfg := parms.cfg,
            alloc_cnt := parms.tcam_cnt 0 }).world
        { dir := 1, num_elements := parms.num_elements, cfg := parms.cfg,
          alloc_cnt := parms.tcam_cnt 1 }).world
      { dir := 0, num_elements := p2.num_elements, cfg := p2.cfg,
        alloc_cnt := p2.tcam_cnt 0 }).rc = 0
  · by_cases hd : (C.tf_rm_create_db
        (C.tf_rm_create_db
          (C.tf_rm_create_db
            (C.tf_rm_create_db s.world
              { dir := 0, num_elements := parms.num_elements, cfg := parms.cfg,
                alloc_cnt := parms.tcam_cnt 0 }).world
            { dir := 1, num_elements := parms.num_elements, cfg := parms.cfg,
              alloc_cnt := parms.tcam_cnt 1 }).world
          { dir := 0, num_elements := p2.num_elements, cfg := p2.cfg,
            alloc_cnt := p2.tcam_cnt 0 }).world
        { dir := 1, num_elements := p2.num_elements, cfg := p2.cfg,
          alloc_cnt := p2.tcam_cnt 1 }).rc = 0
    · simp [tf_tcam_bind, tf_tcam_bind_loop, State.emit, State.callsSince, hc, hd]
    · simp [tf_tcam_bind, tf_tcam_bind_loop, State.emit, State.callsSince, hc, hd]
  · simp [tf_tcam_bind, tf_tcam_bind_loop, State.emit, State.callsSince, hc]

/-- Witness for C17: creation fails with `-ENOMEM` for direction 1 only. -/
theorem tf_tcam_bind_partial_failure_witness :
    (tf_tcam_bind (specCollab (Env.createFails 1 (-ENOMEM))) (State.initial World.empty)
        (cfgOf [4])).1 = -ENOMEM ∧
      (tf_tcam_bind (specCollab (Env.createFails 1 (-ENOMEM))) (State.initial World.empty)
        (cfgOf [4])).2.init = 0 ∧
      (tf_tcam_bind (specCollab (Env.createFails 1 (-ENOMEM))) (State.initial World.empty)
        (cfgOf [4])).2.tcam_db 0 = 1 ∧
      (tf_tcam_bind (specCollab (Env.createFails 1 (-ENOMEM))) (State.initial World.empty)
        (cfgOf [4])).2.tcam_db 0 ≠ 0 ∧
      (tf_tcam_bind (specCollab (Env.createFails 1 (-ENOMEM))) (State.initial World.empty)
        (cfgOf [4])).2.world = { dbs := [some [[false, false, false, false]]] } ∧
      (tf_tcam_bind (specCollab (Env.createFails 1 (-ENOMEM))) (State.initial World.empty)
        (cfgOf [4])).2.trace =
        [] ++ [Call.tf_rm_create_db 0 0, Call.tf_rm_create_db 1 (-ENOMEM)] ∧
      ((tf_tcam_bind (specCollab (Env.createFails 1 (-ENOMEM)))
          (tf_tcam_bind (specCollab (Env.createFails 1 (-ENOMEM))) (State.initial World.empty)
            (cfgOf [4])).2 (cfgOf [2])).2.callsSince
          (tf_tcam_bind (specCollab (Env.createFails 1 (-ENOMEM))) (State.initial World.empty)
            (cfgOf [4])).2).head? = some (Call.tf_rm_create_db 0 0) :=
  tf_tcam_bind_partial_failure (specCollab (Env.createFails 1 (-ENOMEM)))
    (State.initial World.empty) (cfgOf [4]) (cfgOf [2]) _ _ 1 (by decide) rfl rfl rfl
    (by decide) rfl (by decide)

/-- C18: partial unbind failure.  On a bound manager, when the destroy call
for direction `i` fails with `rc`, `tf_tcam_unbind` returns `rc`; that call
is the last one made and only `i + 1` calls are made, so the loop stops
there; the handles of the directions before `i` are `NULL`, the handles of
direction `i` and of every later direction are kept, and the init flag is
unchanged, so the manager is still bound. -/
theorem tf_tcam_unbind_partial_failure {σ : Type} (C : Collab σ) (s : State σ)
    (i h : Nat) (rc : Int) (hbound : s.bound)
    (hfail : Call.tf_rm_free_db i h rc ∈ (tf_tcam_unbind C s).2.callsSince s)
    (hrc : rc ≠ 0) :
    (tf_tcam_unbind C s).1 = rc ∧
      ((tf_tcam_unbind C s).2.callsSince s).getLast? = some (Call.tf_rm_free_db i h rc) ∧
      ((tf_tcam_unbind C s).2.callsSince s).length = i + 1 ∧
      i < TF_DIR_MAX ∧ h = s.tcam_db i ∧
      (∀ d, d < i → (tf_tcam_unbind C s).2.tcam_db d = 0) ∧
      (∀ d, i ≤ d → (tf_tcam_unbind C s).2.tcam_db d = s.tcam_db d) ∧
      (tf_tcam_unbind C s).2.init = s.init ∧ (tf_tcam_unbind C s).2.bound := by
  have hinit : s.init ≠ 0 := hbound
  by_cases h0 : (C.tf_rm_free_db s.world 0 (s.tcam_db 0)).rc = 0
  · by_cases h1 : (C.tf_rm_free_db (C.tf_rm_free_db s.world 0 (s.tcam_db 0)).world 1
        (s.tcam_db 1)).rc = 0
    · simp [tf_tcam_unbind, tf_tcam_unbind_loop, State.emit, State.callsSince, hinit, h0,
        h1] at hfail
      rcases hfail with ⟨-, -, hz⟩ | ⟨-, -, hz⟩ <;> exact absurd hz hrc
    · have hres : tf_tcam_unbind C s =
          ((C.tf_rm_free_db (C.tf_rm_free_db s.world 0 (s.tcam_db 0)).world 1
              (s.tcam_db 1)).rc,
            { init := s.init
              tcam_db := Function.update s.tcam_db 0 0
              world := (C.tf_rm_free_db (C.tf_rm_free_db s.world 0 (s.tcam_db 0)).world 1
                (s.tcam_db 1)).world
              trace := s.trace ++ [Call.tf_rm_free_db 0 (s.tcam_db 0) 0,
                Call.tf_rm_free_db 1 (s.tcam_db 1)
                  (C.tf_rm_free_db (C.tf_rm_free_db s.world 0 (s.tcam_db 0)).world 1
                    (s.tcam_db 1)).rc] }) := by
        simp [tf_tcam_unbind, tf_tcam_unbind_loop, State.emit, hinit, h0, h1]
      rw [hres] at hfail ⊢
      simp [State.callsSince] at hfail
      rcases hfail with ⟨-, -, hz⟩ | ⟨hi, hh, hz⟩
      · exact absurd hz hrc
      · subst hi hh hz
        refine ⟨rfl, by simp [State.callsSince], by simp [State.callsSince], by decide, rfl,
          ?_, ?_, rfl, hinit⟩
        · intro d hd
          have hd0 : d = 0 := by omega
          subst hd0
          show Function.update s.tcam_db 0 0 0 = 0
          simp
        · intro d hd
          have hd0 : d ≠ 0 := by omega
          show Function.update s.tcam_db 0 0 d = s.tcam_db d
          simp [Function.update, hd0]
  · simp [tf_tcam_unbind, tf_tcam_unbind_loop, State.emit, State.callsSince, hinit, h0]
      at hfail
    obtain ⟨hi, hh, hz⟩ := hfail
    subst hi hh hz
    simp [tf_tcam_unbind, tf_tcam_unbind_loop, State.emit, State.callsSince, State.bound,
      hinit, h0]

/-- Witness for C18: after a bind, the destroy call fails with `-EINVAL` for
direction 1 only. -/
theorem tf_tcam_unbind_partial_failure_witness :
    (tf_tcam_unbind (specCollab (Env.destroyFails 1 (-EINVAL))) (boundState [4])).1 = -EINVAL ∧
      ((tf_tcam_unbind (specCollab (Env.destroyFails 1 (-EINVAL))) (boundState [4])).2.callsSince
        (boundState [4])).getLast? = some (Call.tf_rm_free_db 1 2 (-EINVAL)) ∧
      ((tf_tcam_unbind (specCollab (Env.destroyFails 1 (-EINVAL))) (boundState [4])).2.callsSince
        (boundState [4])).length = 1 + 1 ∧
      1 < TF_DIR_MAX ∧ 2 = (boundState [4]).tcam_db 1 ∧
      (∀ d, d < 1 →
        (tf_tcam_unbind (specCollab (Env.destroyFails 1 (-EINVAL)))
          (boundState [4])).2.tcam_db d = 0) ∧
      (∀ d, 1 ≤ d →
        (tf_tcam_unbind (specCollab (Env.destroyFails 1 (-EINVAL)))
          (boundState [4])).2.tcam_db d = (boundState [4]).tcam_db d) ∧
      (tf_tcam_unbind (specCollab (Env.destroyFails 1 (-EINVAL))) (boundState [4])).2.init =
        (boundState [4]).init ∧
      (tf_tcam_unbind (specCollab (Env.destroyFails 1 (-EINVAL))) (boundState [4])).2.bound :=
  tf_tcam_unbind_partial_failure (specCollab (Env.destroyFails 1 (-EINVAL))) (boundState [4])
    1 2 (-EINVAL) (by decide) (by decide) (by decide)

/-- C12: firmware failures are swallowed.  On a bound manager whose lookups
resolve a slice count of at least 1 and whose Index Database reports the
descaled index allocated: `tf_tcam_free`, once the release has succeeded,
returns 0 whatever code `r6.rc` the firmware removal returns, the release
call comes before the firmware call and no Index Database call follows it;
`tf_tcam_set` returns 0 whatever code `q5.rc` the firmware write returns. -/
theorem tf_tcam_firmware_failure_swallowed {σ : Type} (C : Collab σ) (s s1 : State σ)
    (fparms : tf_tcam_free_parms) (sparms : tf_tcam_set_parms) (sc sc1 : Nat) (w3 v3 : σ)
    (r4 q4 : Res Int σ) (r5 r6 q5 : Ret σ)
    (hbound : s.bound) (hres : Resolves C s.world fparms.type 0 sc w3) (hsc : 1 ≤ sc)
    (h4 : C.tf_rm_is_allocated w3 (s.tcam_db fparms.dir) fparms.type (fparms.idx / sc) = r4)
    (h4rc : r4.rc = 0) (h4alloc : r4.out.getD 0 ≠ 0)
    (h5 : C.tf_rm_free r4.world (s.tcam_db fparms.dir) fparms.type (fparms.idx / sc) = r5)
    (h5rc : r5.rc = 0)
    (h6 : C.tf_msg_tcam_entry_free r5.world fparms = r6)
    (gbound : s1.bound)
    (gres : Resolves C s1.world sparms.type sparms.key_size sc1 v3) (gsc : 1 ≤ sc1)
    (g4 : C.tf_rm_is_allocated v3 (s1.tcam_db sparms.dir) sparms.type (sparms.idx / sc1) = q4)
    (g4rc : q4.rc = 0) (g4alloc : q4.out.getD 0 ≠ 0)
    (g5 : C.tf_msg_tcam_entry_set q4.world sparms = q5) :
    tf_tcam_free C s fparms =
        some (0, { s with
          world := r6.world
          trace := s.trace ++
            [Call.tf_session_get_session 0, Call.tf_session_get_device 0,
             Call.tf_dev_get_tcam_slice_info fparms.type 0 0,
             Call.tf_rm_is_allocated (s.tcam_db fparms.dir) fparms.type (fparms.idx / sc) 0,
             Call.tf_rm_free (s.tcam_db fparms.dir) fparms.type (fparms.idx / sc) 0,
             Call.tf_msg_tcam_entry_free fparms.dir fparms.type fparms.idx r6.rc] }) ∧
      tf_tcam_set C s1 sparms =
        some (0, { s1 with
          world := q5.world
          trace := s1.trace ++
            [Call.tf_session_get_session 0, Call.tf_session_get_device 0,
             Call.tf_dev_get_tcam_slice_info sparms.type sparms.key_size 0,
             Call.tf_rm_is_allocated (s1.tcam_db sparms.dir) sparms.type
              (sparms.idx / sc1) 0,
             Call.tf_msg_tcam_entry_set sparms.dir sparms.type sparms.idx q5.rc] }) :=
  ⟨tf_tcam_free_resolved C s fparms sc w3 r4 r5 r6 hbound hres hsc h4 h4rc h4alloc h5 h5rc h6,
   tf_tcam_set_resolved C s1 sparms sc1 v3 q4 q5 gbound gres gsc g4 g4rc g4alloc g5⟩

/-- Witness for C12: capacity 4, one slice per row, logical index 0
allocated; the firmware removal fails with -5 and the firmware write with -7.
Both calls return 0, and after the free no index is allocated any more. -/
theorem tf_tcam_firmware_failure_swallowed_witness :
    tf_tcam_free (specCollab (Env.firmwareFails 1 (-5) (-7)))
        (allocOnce 16 (Env.ok 1) 0 (boundState [4])) { dir := 0, type := 0, idx := 0 } =
        some (0, { allocOnce 16 (Env.ok 1) 0 (boundState [4]) with
          world := (boundState [4]).world
          trace := (allocOnce 16 (Env.ok 1) 0 (boundState [4])).trace ++
            [Call.tf_session_get_session 0, Call.tf_session_get_device 0,
             Call.tf_dev_get_tcam_slice_info 0 0 0,
             Call.tf_rm_is_allocated 1 0 (0 / 1) 0,
             Call.tf_rm_free 1 0 (0 / 1) 0,
             Call.tf_msg_tcam_entry_free 0 0 0 (-5)] }) ∧
      tf_tcam_set (specCollab (Env.firmwareFails 1 (-5) (-7)))
        (allocOnce 16 (Env.ok 1) 0 (boundState [4]))
        { dir := 0, type := 0, idx := 0, key_size := 0, entry := [1] } =
        some (0, { allocOnce 16 (Env.ok 1) 0 (boundState [4]) with
          world := (allocOnce 16 (Env.ok 1) 0 (boundState [4])).world
          trace := (allocOnce 16 (Env.ok 1) 0 (boundState [4])).trace ++
            [Call.tf_session_get_session 0, Call.tf_session_get_device 0,
             Call.tf_dev_get_tcam_slice_info 0 0 0,
             Call.tf_rm_is_allocated 1 0 (0 / 1) 0,
             Call.tf_msg_tcam_entry_set 0 0 0 (-7)] }) :=
  tf_tcam_firmware_failure_swallowed (specCollab (Env.firmwareFails 1 (-5) (-7)))
    (allocOnce 16 (Env.ok 1) 0 (boundState [4])) (allocOnce 16 (Env.ok 1) 0 (boundState [4]))
    { dir := 0, type := 0, idx := 0 }
    { dir := 0, type := 0, idx := 0, key_size := 0, entry := [1] } 1 1 _ _ _ _ _ _ _
    (by decide) ⟨rfl, rfl, _, rfl, rfl, rfl, by decide, rfl⟩ (by decide) rfl rfl (by decide)
    rfl rfl rfl
    (by decide) ⟨rfl, rfl, _, rfl, rfl, rfl, by decide, rfl⟩ (by decide) rfl rfl (by decide)
    rfl

/-- C19: free accepts unaligned hardware indices.  On a bound manager whose
lookups with key size 0 resolve slice count `sc ≥ 1`, every hardware index
`parms.idx` with `l * sc ≤ parms.idx ≤ l * sc + sc - 1` descales to `l`;
when the Index Database reports `l` allocated and releases it, the call
returns 0 and the index it has released is `l`. -/
theorem tf_tcam_free_unaligned {σ : Type} (C : Collab σ) (s : State σ)
    (parms : tf_tcam_free_parms) (sc l : Nat) (w3 : σ) (r4 : Res Int σ) (r5 r6 : Ret σ)
    (hbound : s.bound) (hres : Resolves C s.world parms.type 0 sc w3) (hsc : 1 ≤ sc)
    (hlo : l * sc ≤ parms.idx) (hhi : parms.idx ≤ l * sc + sc - 1)
    (h4 : C.tf_rm_is_allocated w3 (s.tcam_db parms.dir) parms.type l = r4)
    (h4rc : r4.rc = 0) (h4alloc : r4.out.getD 0 ≠ 0)
    (h5 : C.tf_rm_free r4.world (s.tcam_db parms.dir) parms.type l = r5)
    (h5rc : r5.rc = 0)
    (h6 : C.tf_msg_tcam_entry_free r5.world parms = r6) :
    parms.idx / sc = l ∧
      tf_tcam_free C s parms =
        some (0, { s with
          world := r6.world
          trace := s.trace ++
            [Call.tf_session_get_session 0, Call.tf_session_get_device 0,
             Call.tf_dev_get_tcam_slice_info parms.type 0 0,
             Call.tf_rm_is_allocated (s.tcam_db parms.dir) parms.type l 0,
             Call.tf_rm_free (s.tcam_db parms.dir) parms.type l 0,
             Call.tf_msg_tcam_entry_free parms.dir parms.type parms.idx r6.rc] }) := by
  have hdiv : parms.idx / sc = l := by
    apply Nat.div_eq_of_lt_le
    · exact hlo
    · have : (l + 1) * sc = l * sc + sc := by ring
      omega
  refine ⟨hdiv, ?_⟩
  have h := tf_tcam_free_resolved C s parms sc w3 r4 r5 r6 hbound hres hsc
    (by rw [hdiv]; exact h4) h4rc h4alloc (by rw [hdiv]; exact h5) h5rc h6
  rw [hdiv] at h
  exact h

/-- Witness for C19: capacity 4, four slices per row, logical indices 0 and
1 allocated; alloc returned hardware index 4 for logical index 1, and the
free of hardware index 6 releases logical index 1. -/
theorem tf_tcam_free_unaligned_witness :
    6 / 4 = 1 ∧
      tf_tcam_free (specCollab (Env.ok 4))
          (allocOnce 16 (Env.ok 4) 0 (allocOnce 16 (Env.ok 4) 0 (boundState [4])))
          { dir := 0, type := 0, idx := 6 } =
        some (0, { allocOnce 16 (Env.ok 4) 0 (allocOnce 16 (Env.ok 4) 0 (boundState [4])) with
          world := (allocOnce 16 (Env.ok 4) 0 (boundState [4])).world
          trace := (allocOnce 16 (Env.ok 4) 0
              (allocOnce 16 (Env.ok 4) 0 (boundState [4]))).trace ++
            [Call.tf_session_get_session 0, Call.tf_session_get_device 0,
             Call.tf_dev_get_tcam_slice_info 0 0 0,
             Call.tf_rm_is_allocated 1 0 1 0,
             Call.tf_rm_free 1 0 1 0,
             Call.tf_msg_tcam_entry_free 0 0 6 0] }) :=
  tf_tcam_free_unaligned (specCollab (Env.ok 4))
    (allocOnce 16 (Env.ok 4) 0 (allocOnce 16 (Env.ok 4) 0 (boundState [4])))
    { dir := 0, type := 0, idx := 6 } 4 1 _ _ _ _
    (by decide) ⟨rfl, rfl, _, rfl, rfl, rfl, by decide, rfl⟩ (by decide) (by decide) (by decide)
    rfl rfl (by decide) rfl rfl rfl

/-- C20: for a fixed slice count `sc ≥ 1` the scaling of `tf_tcam_alloc` is
injective and range-disjoint.  Let two allocs, with lookups resolving `sc`,
reserve distinct logical indices `l1 ≠ l2` whose products with `sc` fit the
`w`-bit index field.  Then the hardware indices they return are `l1 * sc`
and `l2 * sc` and differ; the ranges of `sc` hardware indices that start
there have no index in common; and for every hardware index in the range of
the first allocation, the one is-allocated query of `tf_tcam_free` and of
`tf_tcam_set`, run with lookups resolving `sc`, is for `l1`, never for `l2`. -/
theorem tf_tcam_alloc_scaling_injective {σ : Type} (w : Nat) (C : Collab σ)
    (s1 s2 : State σ) (p1 p2 : tf_tcam_alloc_parms) (sc l1 l2 : Nat) (w1 w2 : σ)
    (r1 r2 : Res Nat σ)
    (hsc : 1 ≤ sc) (hne : l1 ≠ l2) (hfit1 : l1 * sc < 2 ^ w) (hfit2 : l2 * sc < 2 ^ w)
    (hb1 : s1.bound) (hres1 : Resolves C s1.world p1.type p1.key_size sc w1)
    (ha1 : C.tf_rm_allocate w1 (s1.tcam_db p1.dir) p1.type = r1)
    (ha1rc : r1.rc = 0) (ha1out : r1.out = some l1)
    (hb2 : s2.bound) (hres2 : Resolves C s2.world p2.type p2.key_size sc w2)
    (ha2 : C.tf_rm_allocate w2 (s2.tcam_db p2.dir) p2.type = r2)
    (ha2rc : r2.rc = 0) (ha2out : r2.out = some l2) :
    (tf_tcam_alloc w C s1 p1).2.1.idx = l1 * sc ∧
      (tf_tcam_alloc w C s2 p2).2.1.idx = l2 * sc ∧
      (tf_tcam_alloc w C s1 p1).2.1.idx ≠ (tf_tcam_alloc w C s2 p2).2.1.idx ∧
      (∀ x y, (tf_tcam_alloc w C s1 p1).2.1.idx ≤ x →
        x ≤ (tf_tcam_alloc w C s1 p1).2.1.idx + sc - 1 →
        (tf_tcam_alloc w C s2 p2).2.1.idx ≤ y →
        y ≤ (tf_tcam_alloc w C s2 p2).2.1.idx + sc - 1 → x ≠ y) ∧
      (∀ (s3 : State σ) (fparms : tf_tcam_free_parms) (w3 : σ), s3.bound →
        Resolves C s3.world fparms.type 0 sc w3 →
        (tf_tcam_alloc w C s1 p1).2.1.idx ≤ fparms.idx →
        fparms.idx ≤ (tf_tcam_alloc w C s1 p1).2.1.idx + sc - 1 →
        ∃ r, tf_tcam_free C s3 fparms = some r ∧
          isAllocatedQueries (r.2.callsSince s3) = [l1] ∧
          isAllocatedQueries (r.2.callsSince s3) ≠ [l2]) ∧
      (∀ (s3 : State σ) (sparms : tf_tcam_set_parms) (w3 : σ), s3.bound →
        Resolves C s3.world sparms.type sparms.key_size sc w3 →
        (tf_tcam_alloc w C s1 p1).2.1.idx ≤ sparms.idx →
        sparms.idx ≤ (tf_tcam_alloc w C s1 p1).2.1.idx + sc - 1 →
        ∃ r, tf_tcam_set C s3 sparms = some r ∧
          isAllocatedQueries (r.2.callsSince s3) = [l1] ∧
          isAllocatedQueries (r.2.callsSince s3) ≠ [l2]) := by
  rw [tf_tcam_alloc_resolved w C s1 p1 sc l1 w1 r1 hb1 hres1 ha1 ha1rc ha1out,
    tf_tcam_alloc_resolved w C s2 p2 sc l2 w2 r2 hb2 hres2 ha2 ha2rc ha2out]
  simp only [Nat.mod_eq_of_lt hfit1, Nat.mod_eq_of_lt hfit2]
  have hsc0 : 0 < sc := hsc
  have hdesc : ∀ x l, l * sc ≤ x → x ≤ l * sc + sc - 1 → x / sc = l := by
    intro x l hlo hhi
    apply Nat.div_eq_of_lt_le hlo
    have : (l + 1) * sc = l * sc + sc := by ring
    omega
  have hl : [l1] ≠ [l2] := by
    intro h
    exact hne (List.head_eq_of_cons_eq h)
  refine ⟨trivial, trivial, ?_, ?_, ?_, ?_⟩
  · intro h
    exact hne (Nat.eq_of_mul_eq_mul_right hsc0 h)
  · intro x y hx1 hx2 hy1 hy2 hxy
    subst hxy
    exact hne ((hdesc x l1 hx1 hx2).symm.trans (hdesc x l2 hy1 hy2))
  · intro s3 fparms w3 hb3 hres3 hlo hhi
    obtain ⟨r, hr, hq⟩ := tf_tcam_free_query C s3 fparms sc w3 hb3 hres3 hsc
    rw [hdesc fparms.idx l1 hlo hhi] at hq
    exact ⟨r, hr, hq, by rw [hq]; exact hl⟩
  · intro s3 sparms w3 hb3 hres3 hlo hhi
    obtain ⟨r, hr, hq⟩ := tf_tcam_set_query C s3 sparms sc w3 hb3 hres3 hsc
    rw [hdesc sparms.idx l1 hlo hhi] at hq
    exact ⟨r, hr, hq, by rw [hq]; exact hl⟩

/-- Witness for C20: capacity 4, four slices per row, 16-bit index field; the
first alloc reserves logical index 0 and the second logical index 1; free of
hardware index 6 asks about logical index 1. -/
theorem tf_tcam_alloc_scaling_injective_witness :
    (tf_tcam_alloc 16 (specCollab (Env.ok 4)) (allocOnce 16 (Env.ok 4) 0 (boundState [4]))
        { dir := 0, type := 0, key_size := 0, idx := 0 }).2.1.idx = 1 * 4 ∧
      (tf_tcam_alloc 16 (specCollab (Env.ok 4)) (boundState [4])
        { dir := 0, type := 0, key_size := 0, idx := 0 }).2.1.idx = 0 * 4 ∧
      (∃ r, tf_tcam_free (specCollab (Env.ok 4))
          (allocOnce 16 (Env.ok 4) 0 (allocOnce 16 (Env.ok 4) 0 (boundState [4])))
          { dir := 0, type := 0, idx := 6 } = some r ∧
        isAllocatedQueries (r.2.callsSince
          (allocOnce 16 (Env.ok 4) 0 (allocOnce 16 (Env.ok 4) 0 (boundState [4])))) = [1] ∧
        isAllocatedQueries (r.2.callsSince
          (allocOnce 16 (Env.ok 4) 0 (allocOnce 16 (Env.ok 4) 0 (boundState [4])))) ≠ [0]) :=
  have h := tf_tcam_alloc_scaling_injective 16 (specCollab (Env.ok 4))
    (allocOnce 16 (Env.ok 4) 0 (boundState [4])) (boundState [4])
    { dir := 0, type := 0, key_size := 0, idx := 0 }
    { dir := 0, type := 0, key_size := 0, idx := 0 } 4 1 0 _ _ _ _
    (by decide) (by decide) (by decide) (by decide)
    (by decide) ⟨rfl, rfl, _, rfl, rfl, rfl, by decide, rfl⟩ rfl rfl rfl
    (by decide) ⟨rfl, rfl, _, rfl, rfl, rfl, by decide, rfl⟩ rfl rfl rfl
  ⟨h.1, h.2.1, h.2.2.2.2.1
    (allocOnce 16 (Env.ok 4) 0 (allocOnce 16 (Env.ok 4) 0 (boundState [4])))
    { dir := 0, type := 0, idx := 6 } _ (by decide)
    ⟨rfl, rfl, _, rfl, rfl, rfl, by decide, rfl⟩ (by decide) (by decide)⟩

/-- C11, over the modelled Index Database.  Let the session, device and
slice lookups succeed, let a bind return 0, and let its capacity table give
`c` to (direction `d`, type `t`).  Then:
* right after the bind the pool of (`d`, `t`) has `c` flags, none set;
* in every bound state whose pool of (`d`, `t`) has `c` flags, an alloc for
  (`d`, `t`) returns 0 exactly when fewer than `c` flags are set, returns
  `-ENOMEM` otherwise, and leaves a pool of `c` flags with one more flag set
  exactly when it returned 0;
* after the bind, the alloc that follows a run of `n` allocs for (`d`, `t`)
  returns 0 when `n < c` and `-ENOMEM` otherwise: exactly `c` succeed;
* in a bound state whose pool is full, a free that descales to a set flag
  returns 0, the next alloc returns 0 and the one after it `-ENOMEM`. -/
theorem tf_tcam_alloc_capacity (w : Nat) (E : Env) (f : Nat → Nat → Int × Nat)
    (s0 : State World) (cfg : tf_tcam_cfg_parms) (d : Fin TF_DIR_MAX) (t c : Nat)
    (hsess : E.session_rc = 0) (hdev : E.device_rc = 0) (hslice : E.slice = some f)
    (hf : ∀ k, (f t k).1 = 0)
    (hbind : (tf_tcam_bind (specCollab E) s0 cfg).1 = 0)
    (hcap : (cfg.tcam_cnt d).get? t = some c) :
    (tf_tcam_bind (specCollab E) s0 cfg).2.pool d t = some (List.replicate c false) ∧
    (∀ (s : State World) (pool : List Bool) (k idx : Nat), s.bound →
      s.pool d t = some pool → pool.length = c →
      ((tf_tcam_alloc w (specCollab E) s
          { dir := d, type := t, key_size := k, idx := idx }).1 = 0 ↔ pool.count true < c) ∧
      ((tf_tcam_alloc w (specCollab E) s
          { dir := d, type := t, key_size := k, idx := idx }).1 ≠ 0 →
        (tf_tcam_alloc w (specCollab E) s
          { dir := d, type := t, key_size := k, idx := idx }).1 = -ENOMEM) ∧
      ∃ pool1, (tf_tcam_alloc w (specCollab E) s
          { dir := d, type := t, key_size := k, idx := idx }).2.2.pool d t = some pool1 ∧
        pool1.length = c ∧
        pool1.count true =
          (if (tf_tcam_alloc w (specCollab E) s
              { dir := d, type := t, key_size := k, idx := idx }).1 = 0
            then pool.count true + 1 else pool.count true)) ∧
    (∀ (ks : List Nat) (k idx : Nat),
      (tf_tcam_alloc w (specCollab E)
        (allocSeq w E d t ks (tf_tcam_bind (specCollab E) s0 cfg).2)
        { dir := d, type := t, key_size := k, idx := idx }).1 =
        (if ks.length < c then 0 else -ENOMEM)) ∧
    (∀ (s : State World) (pool : List Bool) (idx sc : Nat), s.bound →
      s.pool d t = some pool → pool.length = c → pool.count true = c →
      f t 0 = (0, sc) → 1 ≤ sc → sc < 2 ^ 16 → pool.getD (idx / sc) false = true →
      ∃ s1, tf_tcam_free (specCollab E) s { dir := d, type := t, idx := idx } = some (0, s1) ∧
        ∀ k1 i1 k2 i2,
          (tf_tcam_alloc w (specCollab E) s1
            { dir := d, type := t, key_size := k1, idx := i1 }).1 = 0 ∧
          (tf_tcam_alloc w (specCollab E)
            (tf_tcam_alloc w (specCollab E) s1
              { dir := d, type := t, key_size := k1, idx := i1 }).2.2
            { dir := d, type := t, key_size := k2, idx := i2 }).1 = -ENOMEM) := by
  obtain ⟨hb0, hp0⟩ := spec_bind_pool E s0 cfg d t c hbind hcap
  have hne : (-ENOMEM : Int) ≠ 0 := by decide
  refine ⟨hp0, ?_, ?_, ?_⟩
  · intro s pool k idx hbound hp hlen
    obtain ⟨hrc, -, pool1, hp1, hlen1, hcount⟩ :=
      spec_alloc_pool w E f s { dir := d, type := t, key_size := k, idx := idx } pool
        hbound hsess hdev hslice (hf k) hp
    rw [hlen] at hrc hcount
    by_cases hlt : pool.count true < c
    · rw [if_pos hlt] at hrc hcount
      exact ⟨⟨fun _ => hlt, fun _ => hrc⟩, fun h => absurd hrc h,
        pool1, hp1, hlen1.trans hlen, by rw [if_pos hrc]; exact hcount⟩
    · rw [if_neg hlt] at hrc hcount
      have hrc0 : (tf_tcam_alloc w (specCollab E) s
          { dir := d, type := t, key_size := k, idx := idx }).1 ≠ 0 := by
        rw [hrc]
        exact hne
      exact ⟨⟨fun h => absurd h hrc0, fun h => absurd h hlt⟩, fun _ => hrc,
        pool1, hp1, hlen1.trans hlen, by rw [if_neg hrc0]; exact hcount⟩
  · intro ks k idx
    have h := spec_allocSeq w E f d t hsess hdev hslice hf ks _ _ k idx hb0 hp0
    have hzero : List.count true (List.replicate c false) = 0 := by
      rw [List.count_replicate]
      rfl
    rw [hzero, List.length_replicate, Nat.zero_add] at h
    exact h
  · intro s pool idx sc hbound hp hlen hfull h0 hsc1 hsc hset
    obtain ⟨s1, hfree, hb1, hp1⟩ :=
      spec_free_pool E f s { dir := d, type := t, idx := idx } pool sc hbound hsess hdev
        hslice h0 hsc1 hsc hp hset
    have hset1 : pool[idx / sc]? = some true := by
      have h1 : (pool[idx / sc]?).getD false = true := by simpa using hset
      cases hx : pool[idx / sc]? with
      | none => simp [hx] at h1
      | some b =>
        simp [hx] at h1
        rw [h1]
    have hcnt := pool_count_set_false pool (idx / sc) hset1
    refine ⟨s1, hfree, ?_⟩
    intro k1 i1 k2 i2
    obtain ⟨hrc1, hb2, pool2, hp2, hlen2, hcount2⟩ :=
      spec_alloc_pool w E f s1 { dir := d, type := t, key_size := k1, idx := i1 }
        (pool.set (idx / sc) false) hb1 hsess hdev hslice (hf k1) hp1
    have hlt : (pool.set (idx / sc) false).count true < (pool.set (idx / sc) false).length := by
      rw [List.length_set]
      omega
    rw [if_pos hlt] at hrc1 hcount2
    refine ⟨hrc1, ?_⟩
    obtain ⟨hrc2, -, -⟩ :=
      spec_alloc_pool w E f _ { dir := d, type := t, key_size := k2, idx := i2 }
        pool2 hb2 hsess hdev hslice (hf k2) hp2
    have hge : ¬ pool2.count true < pool2.length := by
      rw [hcount2, hlen2, List.length_set]
      omega
    rw [if_neg hge] at hrc2
    exact hrc2

/-- Witness for C11: capacity 4 for type 0 on both directions, one slice per
row.  On ingress the fourth alloc returns 0 and the fifth `-ENOMEM`; freeing
hardware index 2 then allows one more alloc, and the one after it fails. -/
theorem tf_tcam_alloc_capacity_witness :
    (tf_tcam_alloc 16 (specCollab (Env.ok 1))
        (allocSeq 16 (Env.ok 1) 0 0 [0, 0, 0]
          (tf_tcam_bind (specCollab (Env.ok 1)) (State.initial World.empty) (cfgOf [4])).2)
        { dir := 0, type := 0, key_size := 0, idx := 0 }).1 = 0 ∧
      (tf_tcam_alloc 16 (specCollab (Env.ok 1))
        (allocSeq 16 (Env.ok 1) 0 0 [0, 0, 0, 0]
          (tf_tcam_bind (specCollab (Env.ok 1)) (State.initial World.empty) (cfgOf [4])).2)
        { dir := 0, type := 0, key_size := 0, idx := 0 }).1 = -ENOMEM ∧
      ∃ s1, tf_tcam_free (specCollab (Env.ok 1))
          (allocSeq 16 (Env.ok 1) 0 0 [0, 0, 0, 0] (boundState [4]))
          { dir := 0, type := 0, idx := 2 } = some (0, s1) ∧
        ∀ k1 i1 k2 i2,
          (tf_tcam_alloc 16 (specCollab (Env.ok 1)) s1
            { dir := 0, type := 0, key_size := k1, idx := i1 }).1 = 0 ∧
          (tf_tcam_alloc 16 (specCollab (Env.ok 1))
            (tf_tcam_alloc 16 (specCollab (Env.ok 1)) s1
              { dir := 0, type := 0, key_size := k1, idx := i1 }).2.2
            { dir := 0, type := 0, key_size := k2, idx := i2 }).1 = -ENOMEM :=
  have h := tf_tcam_alloc_capacity 16 (Env.ok 1) (fun _ _ => (0, 1))
    (State.initial World.empty) (cfgOf [4]) 0 0 4 rfl rfl rfl (fun _ => rfl) (by decide) rfl
  ⟨h.2.2.1 [0, 0, 0] 0 0, h.2.2.1 [0, 0, 0, 0] 0 0,
    h.2.2.2 (allocSeq 16 (Env.ok 1) 0 0 [0, 0, 0, 0] (boundState [4]))
      [true, true, true, true] 2 1 (by decide) (by decide) (by decide) (by decide) rfl
      (by decide) (by decide) (by decide)⟩

/-- C14, as stated, fails where the product of logical index and slice count
does not fit the index field.  With a 16-bit field, capacity 4 and 32768
slices per row, a bind and two allocs reach a bound state in which logical
indices 0 and 1 are allocated; the next alloc reserves logical index 2,
returns 0 and hands back hardware index 2 * 32768 mod 2^16 = 0, which
descales to logical index 0, allocated before the call. -/
theorem tf_tcam_alloc_descaled_counterexample :
    ∃ s, run 16 (specCollab (Env.ok 32768)) (State.initial World.empty)
        [Op.bind (cfgOf [4]), Op.alloc { dir := 0, type := 0, key_size := 0, idx := 0 },
         Op.alloc { dir := 0, type := 0, key_size := 0, idx := 0 }] = some s ∧
      s.bound ∧
      (tf_tcam_alloc 16 (specCollab (Env.ok 32768)) s
        { dir := 0, type := 0, key_size := 0, idx := 0 }).1 = 0 ∧
      (tf_tcam_alloc 16 (specCollab (Env.ok 32768)) s
        { dir := 0, type := 0, key_size := 0, idx := 0 }).2.1.idx = 0 ∧
      (rm_is_allocated s.world (s.tcam_db 0) 0 (0 / 32768)).rc = 0 ∧
      (rm_is_allocated s.world (s.tcam_db 0) 0 (0 / 32768)).out = some 1 :=
  ⟨_, rfl, by decide, by decide, by decide, by decide, by decide⟩

/-- C14, amended, over the modelled Index Database: in every bound state, when
an alloc whose lookups resolve slice count `sc ≥ 1` returns 0, having reserved
logical index `l` with `l * sc` fitting the `w`-bit index field, the hardware
index it hands back descales to `l`, and before the call the Index Database
reported that index not allocated in the (direction, type) partition. -/
theorem tf_tcam_alloc_fresh_index (w : Nat) (E : Env) (f : Nat → Nat → Int × Nat)
    (s : State World) (parms : tf_tcam_alloc_parms) (sc l : Nat)
    (hbound : s.bound) (hsess : E.session_rc = 0) (hdev : E.device_rc = 0)
    (hslice : E.slice = some f)
    (hk : f parms.type parms.key_size = (0, sc)) (hsc1 : 1 ≤ sc) (hsc : sc < 2 ^ 16)
    (hrc : (tf_tcam_alloc w (specCollab E) s parms).1 = 0)
    (hout : (rm_allocate s.world (s.tcam_db parms.dir) parms.type).out = some l)
    (hfit : l * sc < 2 ^ w) :
    (tf_tcam_alloc w (specCollab E) s parms).2.1.idx / sc = l ∧
      (rm_is_allocated s.world (s.tcam_db parms.dir) parms.type
        ((tf_tcam_alloc w (specCollab E) s parms).2.1.idx / sc)).rc = 0 ∧
      (rm_is_allocated s.world (s.tcam_db parms.dir) parms.type
        ((tf_tcam_alloc w (specCollab E) s parms).2.1.idx / sc)).out = some 0 := by
  have hf : (f parms.type parms.key_size).1 = 0 := by rw [hk]
  have hrm : (rm_allocate s.world (s.tcam_db parms.dir) parms.type).rc = 0 := by
    rw [← (spec_alloc_rc w E f s parms hbound hsess hdev hslice hf).1]
    exact hrc
  obtain ⟨db, pool, hdb, hpool, hfree, hout1, -⟩ := rm_allocate_ok hrm
  have hl : pool.indexOf false = l := by
    rw [hout1] at hout
    exact Option.some.inj hout
  have hflag : pool[l]? = some false := by
    rw [← hl, List.getElem?_eq_getElem hfree, List.getElem_indexOf hfree]
  have hres : Resolves (specCollab E) s.world parms.type parms.key_size sc s.world :=
    ⟨hsess, hdev, dev_get_tcam_slice_info f, by simp [specCollab, specDev, hslice],
      by simp [dev_get_tcam_slice_info, hk], by simp [dev_get_tcam_slice_info, hk], hsc, rfl⟩
  rw [tf_tcam_alloc_resolved w (specCollab E) s parms sc l s.world _ hbound hres rfl hrm hout]
  have hdiv : l * sc / sc = l := Nat.mul_div_cancel l (by omega)
  simp only [Nat.mod_eq_of_lt hfit, hdiv]
  refine ⟨trivial, ?_, ?_⟩
  · simp [rm_is_allocated, hdb, hpool]
  · simp [rm_is_allocated, hdb, hpool, hflag]

/-- Witness for C14: capacity 4, two slices per row, 16-bit index field,
logical index 0 allocated; the alloc reserves logical index 1 and returns
hardware index 2. -/
theorem tf_tcam_alloc_fresh_index_witness :
    (tf_tcam_alloc 16 (specCollab (Env.ok 2)) (allocOnce 16 (Env.ok 2) 0 (boundState [4]))
        { dir := 0, type := 0, key_size := 5, idx := 0 }).2.1.idx / 2 = 1 ∧
      (rm_is_allocated (allocOnce 16 (Env.ok 2) 0 (boundState [4])).world
        ((allocOnce 16 (Env.ok 2) 0 (boundState [4])).tcam_db 0) 0
        ((tf_tcam_alloc 16 (specCollab (Env.ok 2)) (allocOnce 16 (Env.ok 2) 0 (boundState [4]))
          { dir := 0, type := 0, key_size := 5, idx := 0 }).2.1.idx / 2)).rc = 0 ∧
      (rm_is_allocated (allocOnce 16 (Env.ok 2) 0 (boundState [4])).world
        ((allocOnce 16 (Env.ok 2) 0 (boundState [4])).tcam_db 0) 0
        ((tf_tcam_alloc 16 (specCollab (Env.ok 2)) (allocOnce 16 (Env.ok 2) 0 (boundState [4]))
          { dir := 0, type := 0, key_size := 5, idx := 0 }).2.1.idx / 2)).out = some 0 :=
  tf_tcam_alloc_fresh_index 16 (Env.ok 2) (fun _ _ => (0, 2))
    (allocOnce 16 (Env.ok 2) 0 (boundState [4]))
    { dir := 0, type := 0, key_size := 5, idx := 0 } 2 1
    (by decide) rfl rfl rfl rfl (by decide) (by decide) (by decide) (by decide) (by decide)

end TfTcam
